import Mathlib

/-!
Shallow embedding of `utils/architectures/RIFE_HD_arch.py` (RIFE-style video
frame interpolation network) and verification of its specification claims.

Tensors are modelled as a shape (batch `n`, channels `c`, height `h`,
width `w`) together with a total data function into `ℚ`.  The network's own
layers (convolutions, transposed convolutions, batch norm in eval mode,
PReLU, pixel shuffle, means, elementwise algebra) are embedded genuinely;
the three primitives that are external to the repository (the `warp`
resampling primitive imported from `utils.architectures.video`, torch's
bilinear `interpolate`, and torch's `sigmoid`) are kept abstract behind the
`Ext` structure, with their shape contracts fixed as the spec describes.
-/

namespace RIFEHD

/-- A 4-dimensional tensor: shape fields plus a total data function
(indices are batch, channel, row, column). -/
structure Tensor where
  n : Nat
  c : Nat
  h : Nat
  w : Nat
  data : Nat → Nat → Nat → Nat → ℚ

/-- Output spatial size of a 2d convolution:
`(size + 2*padding - dilation*(kernel-1) - 1) / stride + 1`. -/
def convDim (size k s p d : Nat) : Nat :=
  (size + 2 * p - d * (k - 1) - 1) / s + 1

/-- Output spatial size of a 2d transposed convolution
(`(size-1)*stride - 2*padding + kernel`, rearranged so that truncated
natural subtraction cannot clip: here `kernel ≥ 2*padding` in every use). -/
def deconvDim (size k s p : Nat) : Nat :=
  (size - 1) * s + k - 2 * p

/-- Output spatial size of `F.interpolate` with a scale factor:
`floor(size * scale)`. -/
def interpDim (size : Nat) (scale : ℚ) : Nat :=
  (⌊(size : ℚ) * scale⌋).toNat

namespace Tensor

/-- `torch.cat((a, b), 1)`: concatenation along the channel dimension. -/
def cat (a b : Tensor) : Tensor :=
  { n := a.n, c := a.c + b.c, h := a.h, w := a.w
    data := fun n c y x => if c < a.c then a.data n c y x else b.data n (c - a.c) y x }

/-- Channel slice `t[:, lo:hi]`. -/
def sliceC (a : Tensor) (lo hi : Nat) : Tensor :=
  { n := a.n, c := hi - lo, h := a.h, w := a.w
    data := fun n c y x => a.data n (lo + c) y x }

/-- Channel slice `t[:, lo:]`. -/
def sliceFrom (a : Tensor) (lo : Nat) : Tensor :=
  { n := a.n, c := a.c - lo, h := a.h, w := a.w
    data := fun n c y x => a.data n (lo + c) y x }

/-- Elementwise negation `-t`. -/
def neg (a : Tensor) : Tensor :=
  { a with data := fun n c y x => -(a.data n c y x) }

/-- Elementwise addition of same-shape tensors (shape taken from the left). -/
def add (a b : Tensor) : Tensor :=
  { a with data := fun n c y x => a.data n c y x + b.data n c y x }

/-- Elementwise product with the broadcasting the source relies on: a
size-1 channel, row or column dimension of `b` is broadcast against `a`
(used for the squeeze-excitation gate `x * w` and for `img * mask`). -/
def mul (a b : Tensor) : Tensor :=
  { n := a.n, c := max a.c b.c, h := max a.h b.h, w := max a.w b.w
    data := fun n c y x =>
      a.data n c y x *
        b.data n (if b.c = 1 then 0 else c) (if b.h = 1 then 0 else y)
          (if b.w = 1 then 0 else x) }

/-- Multiplication by a scalar on the right, `t * q`. -/
def smul (a : Tensor) (q : ℚ) : Tensor :=
  { a with data := fun n c y x => a.data n c y x * q }

/-- Subtraction of a scalar, `t - q`. -/
def subScalar (a : Tensor) (q : ℚ) : Tensor :=
  { a with data := fun n c y x => a.data n c y x - q }

/-- Scalar minus tensor, `q - t` (used for `1 - mask`). -/
def scalarSub (q : ℚ) (a : Tensor) : Tensor :=
  { a with data := fun n c y x => q - a.data n c y x }

/-- `torch.clamp(t, lo, hi)`: elementwise `min (max x lo) hi`. -/
def clamp (a : Tensor) (lo hi : ℚ) : Tensor :=
  { a with data := fun n c y x => min (max lo (a.data n c y x)) hi }

/-- `t.mean(3, True)`: mean over the width dimension, kept with size 1. -/
def meanW (a : Tensor) : Tensor :=
  { a with
    w := 1
    data := fun n c y _ => (∑ i ∈ Finset.range a.w, a.data n c y i) / (a.w : ℚ) }

/-- `t.mean(2, True)`: mean over the height dimension, kept with size 1. -/
def meanH (a : Tensor) : Tensor :=
  { a with
    h := 1
    data := fun n c _ x => (∑ i ∈ Finset.range a.h, a.data n c i x) / (a.h : ℚ) }

/-- `nn.PixelShuffle(2)`: channels divided by 4, both spatial sizes doubled. -/
def pixelShuffle2 (a : Tensor) : Tensor :=
  { n := a.n, c := a.c / 4, h := 2 * a.h, w := 2 * a.w
    data := fun n c y x => a.data n (c * 4 + 2 * (y % 2) + x % 2) (y / 2) (x / 2) }

/-- Zero-padded read of a tensor at possibly out-of-range integer coordinates. -/
def pad (a : Tensor) (n c : Nat) (iy ix : Int) : ℚ :=
  if 0 ≤ iy ∧ iy < (a.h : Int) ∧ 0 ≤ ix ∧ ix < (a.w : Int) then
    a.data n c iy.toNat ix.toNat
  else 0

end Tensor

/-- The primitives external to the repository, kept abstract: torch's
sigmoid, the data part of the `warp` resampling primitive (imported from
`utils.architectures.video`, not part of this file), and the data part of
torch's bilinear `F.interpolate`. -/
structure Ext where
  sig : ℚ → ℚ
  warpD : Tensor → Tensor → Nat → Nat → Nat → Nat → ℚ
  interpD : ℚ → Tensor → Nat → Nat → Nat → Nat → ℚ

/-- Modelled from the spec: the external `warp(image, flow)` primitive
(its implementation lives outside this repository); it resamples `image`
by the displacement field `flow` and produces a tensor of the image's
shape ("must support arbitrary spatial resolution matching its inputs").
The resampled values themselves are abstract (`Ext.warpD`). -/
def warp (E : Ext) (img flow : Tensor) : Tensor :=
  { n := img.n, c := img.c, h := img.h, w := img.w, data := E.warpD img flow }

/-- Modelled from the spec: torch's bilinear `F.interpolate` with a scale
factor and `align_corners=False`, an external opaque collaborator.  The
output spatial sizes are `floor(size * scale)`; the interpolated values
are abstract (`Ext.interpD`). -/
def interpolate (E : Ext) (a : Tensor) (scale : ℚ) : Tensor :=
  { n := a.n, c := a.c, h := interpDim a.h scale, w := interpDim a.w scale
    data := E.interpD scale a }

/-- Elementwise `torch.sigmoid` via the abstract external sigmoid. -/
def sigmoidT (E : Ext) (a : Tensor) : Tensor :=
  { a with data := fun n c y x => E.sig (a.data n c y x) }

/-- `nn.Conv2d`: genuine 2d cross-correlation with zero padding, stride
and dilation; `w` is indexed (out-channel, in-channel, ky, kx). -/
structure Conv2d where
  inC : Nat
  outC : Nat
  k : Nat
  s : Nat
  p : Nat
  d : Nat
  w : Nat → Nat → Nat → Nat → ℚ
  b : Nat → ℚ

def Conv2d.fwd (m : Conv2d) (x : Tensor) : Tensor :=
  { n := x.n, c := m.outC, h := convDim x.h m.k m.s m.p m.d, w := convDim x.w m.k m.s m.p m.d
    data := fun n co y xo =>
      m.b co +
        ∑ ci ∈ Finset.range m.inC, ∑ ky ∈ Finset.range m.k, ∑ kx ∈ Finset.range m.k,
          m.w co ci ky kx *
            x.pad n ci ((y : Int) * m.s - m.p + ky * m.d) ((xo : Int) * m.s - m.p + kx * m.d) }

/-- `nn.ConvTranspose2d`: genuine 2d transposed convolution; `w` is indexed
(in-channel, out-channel, ky, kx). -/
structure ConvT2d where
  inC : Nat
  outC : Nat
  k : Nat
  s : Nat
  p : Nat
  w : Nat → Nat → Nat → Nat → ℚ
  b : Nat → ℚ

def ConvT2d.fwd (m : ConvT2d) (x : Tensor) : Tensor :=
  { n := x.n, c := m.outC, h := deconvDim x.h m.k m.s m.p, w := deconvDim x.w m.k m.s m.p
    data := fun n co y xo =>
      m.b co +
        ∑ ci ∈ Finset.range m.inC, ∑ iy ∈ Finset.range x.h, ∑ ix ∈ Finset.range x.w,
          ∑ ky ∈ Finset.range m.k, ∑ kx ∈ Finset.range m.k,
            if iy * m.s + ky = y + m.p ∧ ix * m.s + kx = xo + m.p then
              m.w ci co ky kx * x.data n ci iy ix
            else 0 }

/-- `nn.BatchNorm2d` in eval mode, folded to its per-channel affine form
`x * scale + shift` (scale and shift stand for `γ/√(σ²+ε)` and
`β - μ·γ/√(σ²+ε)`, which are fixed learned statistics at inference). -/
structure BatchNorm2d where
  scale : Nat → ℚ
  shift : Nat → ℚ

def BatchNorm2d.fwd (m : BatchNorm2d) (x : Tensor) : Tensor :=
  { x with data := fun n c y xo => x.data n c y xo * m.scale c + m.shift c }

/-- `nn.PReLU`: `x` if `x ≥ 0` else `a·x`, with one shared parameter when
`np = 1` and one parameter per channel otherwise. -/
structure PReLU where
  np : Nat
  a : Nat → ℚ

def PReLU.fwd (m : PReLU) (x : Tensor) : Tensor :=
  { x with data := fun n c y xo =>
      let v := x.data n c y xo
      if 0 ≤ v then v else m.a (if m.np = 1 then 0 else c) * v }

/-- One element of an `nn.Sequential`. -/
inductive Layer where
  | conv2d (m : Conv2d)
  | convT (m : ConvT2d)
  | bn (m : BatchNorm2d)
  | prelu (m : PReLU)

def Layer.fwd : Layer → Tensor → Tensor
  | .conv2d m, x => m.fwd x
  | .convT m, x => m.fwd x
  | .bn m, x => m.fwd x
  | .prelu m, x => m.fwd x

/-- Application of an `nn.Sequential`, first layer first. -/
def seqFwd (l : List Layer) (x : Tensor) : Tensor :=
  l.foldl (fun t m => m.fwd t) x

/-- The learned parameters consumed by one call of the `conv`/`conv_woact`
factory functions (conv weight and bias, eval-mode batch-norm affine
parameters, PReLU slopes). -/
structure ConvP where
  w : Nat → Nat → Nat → Nat → ℚ
  b : Nat → ℚ
  bnScale : Nat → ℚ
  bnShift : Nat → ℚ
  pa : Nat → ℚ

/-- Layers of the `mode='rife'` branch of `conv`: biased conv + PReLU. -/
def rifeConvLayers (P : ConvP) (in_planes out_planes kernel_size stride padding dilation : Nat) :
    List Layer :=
  [Layer.conv2d ⟨in_planes, out_planes, kernel_size, stride, padding, dilation, P.w, P.b⟩,
   Layer.prelu ⟨out_planes, P.pa⟩]

/-- Layers of the `mode='ifnet'` branch of `conv`: bias-free conv +
batch norm + PReLU. -/
def ifnetConvLayers (P : ConvP) (in_planes out_planes kernel_size stride padding dilation : Nat) :
    List Layer :=
  [Layer.conv2d ⟨in_planes, out_planes, kernel_size, stride, padding, dilation, P.w, fun _ => 0⟩,
   Layer.bn ⟨P.bnScale, P.bnShift⟩,
   Layer.prelu ⟨out_planes, P.pa⟩]

/-- The `conv` factory: an `if mode == 'rife' ... elif mode == 'ifnet' ...`
with no else branch, so any other mode falls through and the function
returns `None`. -/
def conv (P : ConvP) (in_planes out_planes : Nat) (kernel_size : Nat := 3) (stride : Nat := 1)
    (padding : Nat := 1) (dilation : Nat := 1) (mode : Option String := none) :
    Option (List Layer) :=
  if mode = some "rife" then
    some (rifeConvLayers P in_planes out_planes kernel_size stride padding dilation)
  else if mode = some "ifnet" then
    some (ifnetConvLayers P in_planes out_planes kernel_size stride padding dilation)
  else none

/-- Layers of the `mode='rife'` branch of `conv_woact`: biased conv only. -/
def rifeWoLayers (P : ConvP) (in_planes out_planes kernel_size stride padding dilation : Nat) :
    List Layer :=
  [Layer.conv2d ⟨in_planes, out_planes, kernel_size, stride, padding, dilation, P.w, P.b⟩]

/-- Layers of the `mode='ifnet'` branch of `conv_woact`: bias-free conv +
batch norm. -/
def ifnetWoLayers (P : ConvP) (in_planes out_planes kernel_size stride padding dilation : Nat) :
    List Layer :=
  [Layer.conv2d ⟨in_planes, out_planes, kernel_size, stride, padding, dilation, P.w, fun _ => 0⟩,
   Layer.bn ⟨P.bnScale, P.bnShift⟩]

/-- The `conv_woact` factory: same mode dispatch as `conv`, again with no
else branch (unrecognized modes return `None`). -/
def conv_woact (P : ConvP) (in_planes out_planes : Nat) (kernel_size : Nat := 3)
    (stride : Nat := 1) (padding : Nat := 1) (dilation : Nat := 1)
    (mode : Option String := none) : Option (List Layer) :=
  if mode = some "rife" then
    some (rifeWoLayers P in_planes out_planes kernel_size stride padding dilation)
  else if mode = some "ifnet" then
    some (ifnetWoLayers P in_planes out_planes kernel_size stride padding dilation)
  else none

/-- Parameters of one `deconv` block. -/
structure DeconvP where
  w : Nat → Nat → Nat → Nat → ℚ
  b : Nat → ℚ
  pa : Nat → ℚ

/-- The `deconv` factory: a transposed convolution (the body hard-codes
kernel 4, stride 2, padding 1, ignoring the signature's parameters)
followed by PReLU. -/
def deconv (P : DeconvP) (in_planes out_planes : Nat) (kernel_size : Nat := 4)
    (stride : Nat := 2) (padding : Nat := 1) : List Layer :=
  [Layer.convT ⟨in_planes, out_planes, 4, 2, 1, P.w, P.b⟩,
   Layer.prelu ⟨out_planes, P.pa⟩]

/-- Parameters of one `ResBlock`. -/
structure ResBlockP where
  c0w : Nat → Nat → Nat → Nat → ℚ
  c1 : ConvP
  c2 : ConvP
  r1a : Nat → ℚ
  r2a : Nat → ℚ
  fc1w : Nat → Nat → Nat → Nat → ℚ
  fc2w : Nat → Nat → Nat → Nat → ℚ

/-- A `ResBlock` as constructed: its configuration plus its parameters. -/
structure ResBlock where
  in_planes : Nat
  out_planes : Nat
  stride : Nat
  mode : Option String
  P : ResBlockP

/-- The shortcut path of a `ResBlock`: `nn.Identity()` or a learned
convolution. -/
inductive Shortcut where
  | id
  | proj (m : Conv2d)

def Shortcut.fwd : Shortcut → Tensor → Tensor
  | .id, x => x
  | .proj m, x => m.fwd x

namespace ResBlock

/-- `self.conv0`: identity when `in_planes == out_planes and stride == 1`,
else a bias-free 3×3 convolution with the block's stride. -/
def conv0 (m : ResBlock) : Shortcut :=
  if m.in_planes = m.out_planes ∧ m.stride = 1 then .id
  else .proj ⟨m.in_planes, m.out_planes, 3, m.stride, 1, 1, m.P.c0w, fun _ => 0⟩

/-- `self.conv1`: mode-dependent (3×3 for 'rife', 5×5 padding 2 for
'ifnet'); any other mode leaves the attribute unset, modelled as `none`. -/
def conv1 (m : ResBlock) : Option (List Layer) :=
  if m.mode = some "rife" then conv m.P.c1 m.in_planes m.out_planes 3 m.stride 1 1 m.mode
  else if m.mode = some "ifnet" then conv m.P.c1 m.in_planes m.out_planes 5 m.stride 2 1 m.mode
  else none

/-- `self.conv2 = conv_woact(out_planes, out_planes, 3, 1, 1, mode=mode)`. -/
def conv2 (m : ResBlock) : Option (List Layer) :=
  conv_woact m.P.c2 m.out_planes m.out_planes 3 1 1 1 m.mode

/-- `self.relu1 = nn.PReLU(1)`. -/
def relu1 (m : ResBlock) : PReLU := ⟨1, m.P.r1a⟩

/-- `self.relu2 = nn.PReLU(out_planes)`. -/
def relu2 (m : ResBlock) : PReLU := ⟨m.out_planes, m.P.r2a⟩

/-- `self.fc1 = nn.Conv2d(out_planes, 16, kernel_size=1, bias=False)`. -/
def fc1 (m : ResBlock) : Conv2d := ⟨m.out_planes, 16, 1, 1, 0, 1, m.P.fc1w, fun _ => 0⟩

/-- `self.fc2 = nn.Conv2d(16, out_planes, kernel_size=1, bias=False)`. -/
def fc2 (m : ResBlock) : Conv2d := ⟨16, m.out_planes, 1, 1, 0, 1, m.P.fc2w, fun _ => 0⟩

/-- The pure dataflow of `ResBlock.forward`, abstracted over the two layer
lists that the mode dispatch produced. -/
def body (E : Ext) (m : ResBlock) (c1l c2l : List Layer) (x : Tensor) : Tensor :=
  let y := (conv0 m).fwd x
  let x1 := seqFwd c1l x
  let x2 := seqFwd c2l x1
  let w0 := (x2.meanW).meanH
  let w1 := (relu1 m).fwd ((fc1 m).fwd w0)
  let w2 := sigmoidT E ((fc2 m).fwd w1)
  (relu2 m).fwd (Tensor.add (Tensor.mul x2 w2) y)

/-- `ResBlock.forward`; a mode outside {'rife','ifnet'} has no `conv1`
and the call would raise, modelled as `none`. -/
def forward (E : Ext) (m : ResBlock) (x : Tensor) : Option Tensor := do
  let c1l ← conv1 m
  let c2l ← conv2 m
  some (body E m c1l c2l x)

/-- The total computation of a `ResBlock` constructed with `mode='rife'`. -/
def runRife (E : Ext) (m : ResBlock) (x : Tensor) : Tensor :=
  body E m (rifeConvLayers m.P.c1 m.in_planes m.out_planes 3 m.stride 1 1)
    (rifeWoLayers m.P.c2 m.out_planes m.out_planes 3 1 1 1) x

/-- The total computation of a `ResBlock` constructed with `mode='ifnet'`. -/
def runIfnet (E : Ext) (m : ResBlock) (x : Tensor) : Tensor :=
  body E m (ifnetConvLayers m.P.c1 m.in_planes m.out_planes 5 m.stride 2 1)
    (ifnetWoLayers m.P.c2 m.out_planes m.out_planes 3 1 1 1) x

end ResBlock

/-- Parameters of one `IFBlock` (its head conv, six residual blocks and
tail conv). -/
structure IFBlockP where
  c0 : ConvP
  r0 : ResBlockP
  r1 : ResBlockP
  r2 : ResBlockP
  r3 : ResBlockP
  r4 : ResBlockP
  r5 : ResBlockP
  c1w : Nat → Nat → Nat → Nat → ℚ
  c1b : Nat → ℚ

/-- An `IFBlock` as constructed: `IFBlock(in_planes, scale, c)`. -/
structure IFBlock where
  in_planes : Nat
  scale : Nat
  c : Nat
  P : IFBlockP

namespace IFBlock

/-- `self.conv0 = conv(in_planes, c, 5, 2, 2, 1, mode='ifnet')`. -/
def conv0 (m : IFBlock) : Option (List Layer) :=
  conv m.P.c0 m.in_planes m.c 5 2 2 1 (some "ifnet")

/-- `self.res0 = ResBlock(c, c, 1, mode='ifnet')`, and likewise `res1` …,
`res5`. -/
def res0 (m : IFBlock) : ResBlock := ⟨m.c, m.c, 1, some "ifnet", m.P.r0⟩

def res1 (m : IFBlock) : ResBlock := ⟨m.c, m.c, 1, some "ifnet", m.P.r1⟩

def res2 (m : IFBlock) : ResBlock := ⟨m.c, m.c, 1, some "ifnet", m.P.r2⟩

def res3 (m : IFBlock) : ResBlock := ⟨m.c, m.c, 1, some "ifnet", m.P.r3⟩

def res4 (m : IFBlock) : ResBlock := ⟨m.c, m.c, 1, some "ifnet", m.P.r4⟩

def res5 (m : IFBlock) : ResBlock := ⟨m.c, m.c, 1, some "ifnet", m.P.r5⟩

/-- `self.conv1 = nn.Conv2d(c, 8, 3, 1, 1)`. -/
def conv1 (m : IFBlock) : Conv2d := ⟨m.c, 8, 3, 1, 1, 1, m.P.c1w, m.P.c1b⟩

/-- `IFBlock.forward`: optional downsampling by `1/scale`, head conv, six
residual blocks, projection to 8 channels, pixel shuffle, optional
upsampling back by `scale`. -/
def forward (E : Ext) (m : IFBlock) (x : Tensor) : Option Tensor := do
  let x := if m.scale ≠ 1 then interpolate E x (1 / (m.scale : ℚ)) else x
  let c0l ← conv0 m
  let x := seqFwd c0l x
  let x ← (res0 m).forward E x
  let x ← (res1 m).forward E x
  let x ← (res2 m).forward E x
  let x ← (res3 m).forward E x
  let x ← (res4 m).forward E x
  let x ← (res5 m).forward E x
  let x := (conv1 m).fwd x
  let flow := Tensor.pixelShuffle2 x
  let flow := if m.scale ≠ 1 then interpolate E flow ((m.scale : ℚ)) else flow
  some flow

/-- The total computation of an `IFBlock` (all of its sub-blocks are
constructed with `mode='ifnet'`, so every dispatch succeeds). -/
def run (E : Ext) (m : IFBlock) (x : Tensor) : Tensor :=
  let x := if m.scale ≠ 1 then interpolate E x (1 / (m.scale : ℚ)) else x
  let x := seqFwd (ifnetConvLayers m.P.c0 m.in_planes m.c 5 2 2 1) x
  let x := (res0 m).runIfnet E x
  let x := (res1 m).runIfnet E x
  let x := (res2 m).runIfnet E x
  let x := (res3 m).runIfnet E x
  let x := (res4 m).runIfnet E x
  let x := (res5 m).runIfnet E x
  let x := (conv1 m).fwd x
  let flow := Tensor.pixelShuffle2 x
  if m.scale ≠ 1 then interpolate E flow ((m.scale : ℚ)) else flow

end IFBlock

/-- Parameters of `IFNet` (four `IFBlock`s). -/
structure IFNetP where
  b0 : IFBlockP
  b1 : IFBlockP
  b2 : IFBlockP
  b3 : IFBlockP

namespace IFNet

/-- `self.block0 = IFBlock(6, scale=8, c=192)`. -/
def block0 (P : IFNetP) : IFBlock := ⟨6, 8, 192, P.b0⟩

/-- `self.block1 = IFBlock(8, scale=4, c=128)`. -/
def block1 (P : IFNetP) : IFBlock := ⟨8, 4, 128, P.b1⟩

/-- `self.block2 = IFBlock(8, scale=2, c=96)`. -/
def block2 (P : IFNetP) : IFBlock := ⟨8, 2, 96, P.b2⟩

/-- `self.block3 = IFBlock(8, scale=1, c=48)`. -/
def block3 (P : IFNetP) : IFBlock := ⟨8, 1, 48, P.b3⟩

/-- `IFNet.forward` exactly as in the source: downsample the concatenated
pair by 0.5, then four cascade stages, each stage warping both (already
downsampled) frames by the flow accumulated so far and adding its own
flow estimate. -/
def forward (E : Ext) (P : IFNetP) (x : Tensor) : Option (Tensor × List Tensor) := do
  let x := interpolate E x ((1 : ℚ) / 2)
  let flow0 ← (block0 P).forward E x
  let F1 := flow0
  let warped_img0 := warp E (x.sliceC 0 3) F1
  let warped_img1 := warp E (x.sliceFrom 3) (Tensor.neg F1)
  let flow1 ← (block1 P).forward E (Tensor.cat (Tensor.cat warped_img0 warped_img1) F1)
  let F2 := Tensor.add flow0 flow1
  let warped_img0 := warp E (x.sliceC 0 3) F2
  let warped_img1 := warp E (x.sliceFrom 3) (Tensor.neg F2)
  let flow2 ← (block2 P).forward E (Tensor.cat (Tensor.cat warped_img0 warped_img1) F2)
  let F3 := Tensor.add (Tensor.add flow0 flow1) flow2
  let warped_img0 := warp E (x.sliceC 0 3) F3
  let warped_img1 := warp E (x.sliceFrom 3) (Tensor.neg F3)
  let flow3 ← (block3 P).forward E (Tensor.cat (Tensor.cat warped_img0 warped_img1) F3)
  let F4 := Tensor.add (Tensor.add (Tensor.add flow0 flow1) flow2) flow3
  some (F4, [F1, F2, F3, F4])

/-- What `block0` receives: the concatenated frame pair downsampled by
0.5 (source line `x = F.interpolate(x, scale_factor=0.5, ...)`). -/
def input0 (E : Ext) (x : Tensor) : Tensor := interpolate E x ((1 : ℚ) / 2)

/-- The per-stage flow estimate of stage 0. -/
def flow0 (E : Ext) (P : IFNetP) (x : Tensor) : Tensor :=
  (block0 P).run E (input0 E x)

/-- The first cumulative flow, `F1 = flow0`. -/
def F1 (E : Ext) (P : IFNetP) (x : Tensor) : Tensor := flow0 E P x

/-- What `block1` receives: both downsampled frames warped by `F1` (the
second by `-F1`), concatenated with `F1`. -/
def input1 (E : Ext) (P : IFNetP) (x : Tensor) : Tensor :=
  Tensor.cat
    (Tensor.cat (warp E ((input0 E x).sliceC 0 3) (F1 E P x))
      (warp E ((input0 E x).sliceFrom 3) (Tensor.neg (F1 E P x))))
    (F1 E P x)

/-- The per-stage flow estimate of stage 1. -/
def flow1 (E : Ext) (P : IFNetP) (x : Tensor) : Tensor :=
  (block1 P).run E (input1 E P x)

/-- The second cumulative flow, `F2 = flow0 + flow1`. -/
def F2 (E : Ext) (P : IFNetP) (x : Tensor) : Tensor :=
  Tensor.add (flow0 E P x) (flow1 E P x)

/-- What `block2` receives: both downsampled frames warped by `F2`,
concatenated with `F2`. -/
def input2 (E : Ext) (P : IFNetP) (x : Tensor) : Tensor :=
  Tensor.cat
    (Tensor.cat (warp E ((input0 E x).sliceC 0 3) (F2 E P x))
      (warp E ((input0 E x).sliceFrom 3) (Tensor.neg (F2 E P x))))
    (F2 E P x)

/-- The per-stage flow estimate of stage 2. -/
def flow2 (E : Ext) (P : IFNetP) (x : Tensor) : Tensor :=
  (block2 P).run E (input2 E P x)

/-- The third cumulative flow, `F3 = flow0 + flow1 + flow2`. -/
def F3 (E : Ext) (P : IFNetP) (x : Tensor) : Tensor :=
  Tensor.add (Tensor.add (flow0 E P x) (flow1 E P x)) (flow2 E P x)

/-- What `block3` receives: both downsampled frames warped by `F3`,
concatenated with `F3`. -/
def input3 (E : Ext) (P : IFNetP) (x : Tensor) : Tensor :=
  Tensor.cat
    (Tensor.cat (warp E ((input0 E x).sliceC 0 3) (F3 E P x))
      (warp E ((input0 E x).sliceFrom 3) (Tensor.neg (F3 E P x))))
    (F3 E P x)

/-- The per-stage flow estimate of stage 3. -/
def flow3 (E : Ext) (P : IFNetP) (x : Tensor) : Tensor :=
  (block3 P).run E (input3 E P x)

/-- The fourth cumulative flow, `F4 = flow0 + flow1 + flow2 + flow3`. -/
def F4 (E : Ext) (P : IFNetP) (x : Tensor) : Tensor :=
  Tensor.add (Tensor.add (Tensor.add (flow0 E P x) (flow1 E P x)) (flow2 E P x)) (flow3 E P x)

end IFNet

/-- Parameters of `ContextNet`. -/
structure ContextNetP where
  c0 : ConvP
  r1 : ResBlockP
  r2 : ResBlockP
  r3 : ResBlockP
  r4 : ResBlockP

/-- A `ContextNet` as constructed: `ContextNet(c=32)`. -/
structure ContextNet where
  c : Nat
  P : ContextNetP

namespace ContextNet

/-- `self.conv0 = conv(3, c, 3, 2, 1, mode='rife')`. -/
def conv0 (m : ContextNet) : Option (List Layer) :=
  conv m.P.c0 3 m.c 3 2 1 1 (some "rife")

/-- `self.conv1 = ResBlock(c, c, 2, mode='rife')`. -/
def conv1 (m : ContextNet) : ResBlock := ⟨m.c, m.c, 2, some "rife", m.P.r1⟩

/-- `self.conv2 = ResBlock(c, 2*c, 2, mode='rife')`. -/
def conv2 (m : ContextNet) : ResBlock := ⟨m.c, 2 * m.c, 2, some "rife", m.P.r2⟩

/-- `self.conv3 = ResBlock(2*c, 4*c, 2, mode='rife')`. -/
def conv3 (m : ContextNet) : ResBlock := ⟨2 * m.c, 4 * m.c, 2, some "rife", m.P.r3⟩

/-- `self.conv4 = ResBlock(4*c, 8*c, 2, mode='rife')`. -/
def conv4 (m : ContextNet) : ResBlock := ⟨4 * m.c, 8 * m.c, 2, some "rife", m.P.r4⟩

/-- One flow-halving step of `ContextNet.forward`:
`flow = F.interpolate(flow, scale_factor=0.5, ...) * 0.5`. -/
def hFlow (E : Ext) (f : Tensor) : Tensor :=
  Tensor.smul (interpolate E f ((1 : ℚ) / 2)) ((1 : ℚ) / 2)

/-- `ContextNet.forward` exactly as in the source. -/
def forward (E : Ext) (m : ContextNet) (x flow : Tensor) : Option (List Tensor) := do
  let c0l ← conv0 m
  let x := seqFwd c0l x
  let x ← (conv1 m).forward E x
  let flow := hFlow E flow
  let f1 := warp E x flow
  let x ← (conv2 m).forward E x
  let flow := hFlow E flow
  let f2 := warp E x flow
  let x ← (conv3 m).forward E x
  let flow := hFlow E flow
  let f3 := warp E x flow
  let x ← (conv4 m).forward E x
  let flow := hFlow E flow
  let f4 := warp E x flow
  some [f1, f2, f3, f4]

/-- Features after `conv0` and `conv1`. -/
def x1 (E : Ext) (m : ContextNet) (x : Tensor) : Tensor :=
  (conv1 m).runRife E (seqFwd (rifeConvLayers m.P.c0 3 m.c 3 2 1 1) x)

/-- Features after `conv2`. -/
def x2 (E : Ext) (m : ContextNet) (x : Tensor) : Tensor :=
  (conv2 m).runRife E (x1 E m x)

/-- Features after `conv3`. -/
def x3 (E : Ext) (m : ContextNet) (x : Tensor) : Tensor :=
  (conv3 m).runRife E (x2 E m x)

/-- Features after `conv4`. -/
def x4 (E : Ext) (m : ContextNet) (x : Tensor) : Tensor :=
  (conv4 m).runRife E (x3 E m x)

/-- First pyramid level: `x1` warped by the once-halved flow. -/
def f1 (E : Ext) (m : ContextNet) (x flow : Tensor) : Tensor :=
  warp E (x1 E m x) (hFlow E flow)

/-- Second pyramid level: `x2` warped by the twice-halved flow. -/
def f2 (E : Ext) (m : ContextNet) (x flow : Tensor) : Tensor :=
  warp E (x2 E m x) (hFlow E (hFlow E flow))

/-- Third pyramid level: `x3` warped by the three-times-halved flow. -/
def f3 (E : Ext) (m : ContextNet) (x flow : Tensor) : Tensor :=
  warp E (x3 E m x) (hFlow E (hFlow E (hFlow E flow)))

/-- Fourth pyramid level: `x4` warped by the four-times-halved flow. -/
def f4 (E : Ext) (m : ContextNet) (x flow : Tensor) : Tensor :=
  warp E (x4 E m x) (hFlow E (hFlow E (hFlow E (hFlow E flow))))

/-- The total computation of `ContextNet.forward` (every sub-block uses
`mode='rife'`, so every dispatch succeeds). -/
def levels (E : Ext) (m : ContextNet) (x flow : Tensor) : List Tensor :=
  [f1 E m x flow, f2 E m x flow, f3 E m x flow, f4 E m x flow]

end ContextNet

/-- Parameters of `FusionNet`. -/
structure FusionNetP where
  c0 : ConvP
  d0 : ResBlockP
  d1 : ResBlockP
  d2 : ResBlockP
  d3 : ResBlockP
  u0 : DeconvP
  u1 : DeconvP
  u2 : DeconvP
  u3 : DeconvP
  convw : Nat → Nat → Nat → Nat → ℚ
  convb : Nat → ℚ

/-- A `FusionNet` as constructed: `FusionNet(c=32)`. -/
structure FusionNet where
  c : Nat
  P : FusionNetP

/-- The tuple returned by `FusionNet.forward`. -/
structure FusionOut where
  out : Tensor
  w0 : Tensor
  w1 : Tensor
  g0 : Option Tensor
  g1 : Option Tensor

namespace FusionNet

/-- `self.conv0 = conv(8, c, 3, 2, 1, mode='rife')`. -/
def conv0 (m : FusionNet) : Option (List Layer) :=
  conv m.P.c0 8 m.c 3 2 1 1 (some "rife")

/-- `self.down0 = ResBlock(c, 2*c, 2, mode='rife')`. -/
def down0 (m : FusionNet) : ResBlock := ⟨m.c, 2 * m.c, 2, some "rife", m.P.d0⟩

/-- `self.down1 = ResBlock(4*c, 4*c, 2, mode='rife')`. -/
def down1 (m : FusionNet) : ResBlock := ⟨4 * m.c, 4 * m.c, 2, some "rife", m.P.d1⟩

/-- `self.down2 = ResBlock(8*c, 8*c, 2, mode='rife')`. -/
def down2 (m : FusionNet) : ResBlock := ⟨8 * m.c, 8 * m.c, 2, some "rife", m.P.d2⟩

/-- `self.down3 = ResBlock(16*c, 16*c, 2, mode='rife')`. -/
def down3 (m : FusionNet) : ResBlock := ⟨16 * m.c, 16 * m.c, 2, some "rife", m.P.d3⟩

/-- `self.up0 = deconv(32*c, 8*c)`. -/
def up0 (m : FusionNet) : List Layer := deconv m.P.u0 (32 * m.c) (8 * m.c)

/-- `self.up1 = deconv(16*c, 4*c)`. -/
def up1 (m : FusionNet) : List Layer := deconv m.P.u1 (16 * m.c) (4 * m.c)

/-- `self.up2 = deconv(8*c, 2*c)`. -/
def up2 (m : FusionNet) : List Layer := deconv m.P.u2 (8 * m.c) (2 * m.c)

/-- `self.up3 = deconv(4*c, c)`. -/
def up3 (m : FusionNet) : List Layer := deconv m.P.u3 (4 * m.c) m.c

/-- `self.conv = nn.Conv2d(c, 16, 3, 1, 1)`. -/
def convOut (m : FusionNet) : Conv2d := ⟨m.c, 16, 3, 1, 1, 1, m.P.convw, m.P.convb⟩

/-- List indexing `l[i]` for the two context pyramids (always in range in
every call the repository makes). -/
def nth (l : List Tensor) (i : Nat) : Tensor :=
  l.getD i ⟨0, 0, 0, 0, fun _ _ _ _ => 0⟩

/-- The `flow_gt` branch of `FusionNet.forward`: both ground-truth warps
are `None` iff `flow_gt` is `None`; otherwise `img0` is warped by the
first two flow channels and `img1` by channels 2..4. -/
def gtWarps (E : Ext) (img0 img1 : Tensor) (flow_gt : Option Tensor) :
    Option Tensor × Option Tensor :=
  match flow_gt with
  | none => (none, none)
  | some g => (some (warp E img0 (g.sliceC 0 2)), some (warp E img1 (g.sliceC 2 4)))

/-- `FusionNet.forward` exactly as in the source. -/
def forward (E : Ext) (m : FusionNet) (img0 img1 flow : Tensor) (c0 c1 : List Tensor)
    (flow_gt : Option Tensor) : Option FusionOut := do
  let warped_img0 := warp E img0 flow
  let warped_img1 := warp E img1 (Tensor.neg flow)
  let gw := gtWarps E img0 img1 flow_gt
  let c0l ← conv0 m
  let x := seqFwd c0l (Tensor.cat (Tensor.cat warped_img0 warped_img1) flow)
  let s0 ← (down0 m).forward E x
  let s1 ← (down1 m).forward E (Tensor.cat (Tensor.cat s0 (nth c0 0)) (nth c1 0))
  let s2 ← (down2 m).forward E (Tensor.cat (Tensor.cat s1 (nth c0 1)) (nth c1 1))
  let s3 ← (down3 m).forward E (Tensor.cat (Tensor.cat s2 (nth c0 2)) (nth c1 2))
  let x := seqFwd (up0 m) (Tensor.cat (Tensor.cat s3 (nth c0 3)) (nth c1 3))
  let x := seqFwd (up1 m) (Tensor.cat x s2)
  let x := seqFwd (up2 m) (Tensor.cat x s1)
  let x := seqFwd (up3 m) (Tensor.cat x s0)
  let x := Tensor.pixelShuffle2 ((convOut m).fwd x)
  some ⟨x, warped_img0, warped_img1, gw.1, gw.2⟩

/-- The 16-channel tensor produced by `self.conv` just before the final
pixel shuffle (the encoder/decoder chain applied to the warped images and
flow, with the context pyramids concatenated at the matching depths). -/
def preShuffle (E : Ext) (m : FusionNet) (img0 img1 flow : Tensor) (c0 c1 : List Tensor) :
    Tensor :=
  let warped_img0 := warp E img0 flow
  let warped_img1 := warp E img1 (Tensor.neg flow)
  let x := seqFwd (rifeConvLayers m.P.c0 8 m.c 3 2 1 1)
    (Tensor.cat (Tensor.cat warped_img0 warped_img1) flow)
  let s0 := (down0 m).runRife E x
  let s1 := (down1 m).runRife E (Tensor.cat (Tensor.cat s0 (nth c0 0)) (nth c1 0))
  let s2 := (down2 m).runRife E (Tensor.cat (Tensor.cat s1 (nth c0 1)) (nth c1 1))
  let s3 := (down3 m).runRife E (Tensor.cat (Tensor.cat s2 (nth c0 2)) (nth c1 2))
  let x := seqFwd (up0 m) (Tensor.cat (Tensor.cat s3 (nth c0 3)) (nth c1 3))
  let x := seqFwd (up1 m) (Tensor.cat x s2)
  let x := seqFwd (up2 m) (Tensor.cat x s1)
  let x := seqFwd (up3 m) (Tensor.cat x s0)
  (convOut m).fwd x

/-- The total computation of `FusionNet.forward` (every sub-block uses
`mode='rife'`, so every dispatch succeeds). -/
def run (E : Ext) (m : FusionNet) (img0 img1 flow : Tensor) (c0 c1 : List Tensor)
    (flow_gt : Option Tensor) : FusionOut :=
  ⟨Tensor.pixelShuffle2 (preShuffle E m img0 img1 flow c0 c1),
    warp E img0 flow, warp E img1 (Tensor.neg flow),
    (gtWarps E img0 img1 flow_gt).1, (gtWarps E img0 img1 flow_gt).2⟩

end FusionNet

/-- Parameters of the top-level `RIFE` module: one parameter set for each
of its three subnetworks (`self.contextnet` is a single module applied to
both frames). -/
structure RIFEP where
  flownet : IFNetP
  contextnet : ContextNetP
  fusionnet : FusionNetP

/-- The value returned by `RIFE.forward`: the full tuple in training mode,
only the prediction in inference mode. -/
inductive RIFEOut where
  | train (pred mask merged warped0 warped1 : Tensor) (g0 g1 : Option Tensor)
  | infer (pred : Tensor)

namespace RIFE

/-- `self.contextnet = ContextNet().eval().to(device)`. -/
def contextnetM (m : RIFEP) : ContextNet := ⟨32, m.contextnet⟩

/-- `self.fusionnet = FusionNet().eval().to(device)`. -/
def fusionnetM (m : RIFEP) : FusionNet := ⟨32, m.fusionnet⟩

/-- `RIFE.forward` exactly as in the source.  The `imgs` and `flow`
keyword parameters are part of the signature but are overwritten before
first use (`imgs = torch.cat(...)`, `flow, _ = self.flownet(imgs)`). -/
def forward (E : Ext) (m : RIFEP) (img0 img1 : Tensor) (imgs flow : Option Tensor)
    (training : Bool := true) (flow_gt : Option Tensor := none) : Option RIFEOut := do
  let imgs := Tensor.cat img0 img1
  let fpair ← IFNet.forward E m.flownet imgs
  let flow := fpair.1
  let img0 := imgs.sliceC 0 3
  let img1 := imgs.sliceFrom 3
  let c0 ← ContextNet.forward E (contextnetM m) img0 flow
  let c1 ← ContextNet.forward E (contextnetM m) img1 (Tensor.neg flow)
  let flow := Tensor.smul (interpolate E flow (2 : ℚ)) (2 : ℚ)
  let r ← FusionNet.forward E (fusionnetM m) img0 img1 flow c0 c1 flow_gt
  let res := Tensor.subScalar (Tensor.smul (sigmoidT E (r.out.sliceC 0 3)) 2) 1
  let mask := sigmoidT E (r.out.sliceC 3 4)
  let merged_img := Tensor.add (Tensor.mul r.w0 mask)
    (Tensor.mul r.w1 (Tensor.scalarSub 1 mask))
  let pred := Tensor.clamp (Tensor.add merged_img res) 0 1
  if training then
    some (.train pred mask merged_img r.w0 r.w1 r.g0 r.g1)
  else
    some (.infer pred)

/-- The half-resolution flow `F4` produced by the flow network on the
concatenated pair. -/
def flowHalf (E : Ext) (m : RIFEP) (img0 img1 : Tensor) : Tensor :=
  IFNet.F4 E m.flownet (Tensor.cat img0 img1)

/-- `img0 = imgs[:, :3]` re-extracted from the concatenation. -/
def img0s (img0 img1 : Tensor) : Tensor := (Tensor.cat img0 img1).sliceC 0 3

/-- `img1 = imgs[:, 3:]` re-extracted from the concatenation. -/
def img1s (img0 img1 : Tensor) : Tensor := (Tensor.cat img0 img1).sliceFrom 3

/-- The flow upsampled to full resolution and doubled in magnitude. -/
def flowFull (E : Ext) (m : RIFEP) (img0 img1 : Tensor) : Tensor :=
  Tensor.smul (interpolate E (flowHalf E m img0 img1) (2 : ℚ)) (2 : ℚ)

/-- The `FusionNet` result inside `RIFE.forward`. -/
def fusion (E : Ext) (m : RIFEP) (img0 img1 : Tensor) (flow_gt : Option Tensor) : FusionOut :=
  FusionNet.run E (fusionnetM m) (img0s img0 img1) (img1s img0 img1)
    (flowFull E m img0 img1)
    (ContextNet.levels E (contextnetM m) (img0s img0 img1) (flowHalf E m img0 img1))
    (ContextNet.levels E (contextnetM m) (img1s img0 img1)
      (Tensor.neg (flowHalf E m img0 img1)))
    flow_gt

/-- `refine_output` inside `RIFE.forward`. -/
def refine (E : Ext) (m : RIFEP) (img0 img1 : Tensor) (flow_gt : Option Tensor) : Tensor :=
  (fusion E m img0 img1 flow_gt).out

/-- `res = torch.sigmoid(refine_output[:, :3]) * 2 - 1`. -/
def res (E : Ext) (m : RIFEP) (img0 img1 : Tensor) (flow_gt : Option Tensor) : Tensor :=
  Tensor.subScalar (Tensor.smul (sigmoidT E ((refine E m img0 img1 flow_gt).sliceC 0 3)) 2) 1

/-- `mask = torch.sigmoid(refine_output[:, 3:4])`. -/
def mask (E : Ext) (m : RIFEP) (img0 img1 : Tensor) (flow_gt : Option Tensor) : Tensor :=
  sigmoidT E ((refine E m img0 img1 flow_gt).sliceC 3 4)

/-- `merged_img = warped_img0 * mask + warped_img1 * (1 - mask)`. -/
def merged (E : Ext) (m : RIFEP) (img0 img1 : Tensor) (flow_gt : Option Tensor) : Tensor :=
  Tensor.add (Tensor.mul (fusion E m img0 img1 flow_gt).w0 (mask E m img0 img1 flow_gt))
    (Tensor.mul (fusion E m img0 img1 flow_gt).w1
      (Tensor.scalarSub 1 (mask E m img0 img1 flow_gt)))

/-- `pred = torch.clamp(merged_img + res, 0, 1)`. -/
def pred (E : Ext) (m : RIFEP) (img0 img1 : Tensor) (flow_gt : Option Tensor) : Tensor :=
  Tensor.clamp (Tensor.add (merged E m img0 img1 flow_gt) (res E m img0 img1 flow_gt)) 0 1

end RIFE

/-- An all-zero data function, for concrete instantiations. -/
def zeroData : Nat → Nat → Nat → Nat → ℚ := fun _ _ _ _ => 0

/-- A concrete tensor of the given shape filled with zeros. -/
def T0 (n c h w : Nat) : Tensor := ⟨n, c, h, w, zeroData⟩

/-- A concrete instantiation of the external primitives: constant-half
sigmoid (which lies in [0,1]), zero-valued warp and interpolation data. -/
def E0 : Ext := ⟨fun _ => 1 / 2, fun _ _ => zeroData, fun _ _ => zeroData⟩

/-- All-zero parameters for one conv factory call. -/
def zeroConvP : ConvP := ⟨zeroData, fun _ => 0, fun _ => 0, fun _ => 0, fun _ => 0⟩

/-- All-zero parameters for one deconv block. -/
def zeroDeconvP : DeconvP := ⟨zeroData, fun _ => 0, fun _ => 0⟩

/-- All-zero parameters for one residual block. -/
def zeroResBlockP : ResBlockP :=
  ⟨zeroData, zeroConvP, zeroConvP, fun _ => 0, fun _ => 0, zeroData, zeroData⟩

/-- All-zero parameters for one `IFBlock`. -/
def zeroIFBlockP : IFBlockP :=
  ⟨zeroConvP, zeroResBlockP, zeroResBlockP, zeroResBlockP, zeroResBlockP, zeroResBlockP,
    zeroResBlockP, zeroData, fun _ => 0⟩

/-- All-zero parameters for `IFNet`. -/
def zeroIFNetP : IFNetP := ⟨zeroIFBlockP, zeroIFBlockP, zeroIFBlockP, zeroIFBlockP⟩

/-- All-zero parameters for `ContextNet`. -/
def zeroContextNetP : ContextNetP :=
  ⟨zeroConvP, zeroResBlockP, zeroResBlockP, zeroResBlockP, zeroResBlockP⟩

/-- All-zero parameters for `FusionNet`. -/
def zeroFusionNetP : FusionNetP :=
  ⟨zeroConvP, zeroResBlockP, zeroResBlockP, zeroResBlockP, zeroResBlockP,
    zeroDeconvP, zeroDeconvP, zeroDeconvP, zeroDeconvP, zeroData, fun _ => 0⟩

/-- All-zero parameters for the whole `RIFE` model. -/
def zeroRIFEP : RIFEP := ⟨zeroIFNetP, zeroContextNetP, zeroFusionNetP⟩

/-! ### Shape lemmas for the tensor operations and layers -/

@[simp] theorem cat_n (a b : Tensor) : (Tensor.cat a b).n = a.n := rfl

@[simp] theorem cat_c (a b : Tensor) : (Tensor.cat a b).c = a.c + b.c := rfl

@[simp] theorem cat_h (a b : Tensor) : (Tensor.cat a b).h = a.h := rfl

@[simp] theorem cat_w (a b : Tensor) : (Tensor.cat a b).w = a.w := rfl

@[simp] theorem sliceC_n (a : Tensor) (lo hi : Nat) : (a.sliceC lo hi).n = a.n := rfl

@[simp] theorem sliceC_c (a : Tensor) (lo hi : Nat) : (a.sliceC lo hi).c = hi - lo := rfl

@[simp] theorem sliceC_h (a : Tensor) (lo hi : Nat) : (a.sliceC lo hi).h = a.h := rfl

@[simp] theorem sliceC_w (a : Tensor) (lo hi : Nat) : (a.sliceC lo hi).w = a.w := rfl

@[simp] theorem sliceFrom_n (a : Tensor) (lo : Nat) : (a.sliceFrom lo).n = a.n := rfl

@[simp] theorem sliceFrom_c (a : Tensor) (lo : Nat) : (a.sliceFrom lo).c = a.c - lo := rfl

@[simp] theorem sliceFrom_h (a : Tensor) (lo : Nat) : (a.sliceFrom lo).h = a.h := rfl

@[simp] theorem sliceFrom_w (a : Tensor) (lo : Nat) : (a.sliceFrom lo).w = a.w := rfl

@[simp] theorem neg_n (a : Tensor) : a.neg.n = a.n := rfl

@[simp] theorem neg_c (a : Tensor) : a.neg.c = a.c := rfl

@[simp] theorem neg_h (a : Tensor) : a.neg.h = a.h := rfl

@[simp] theorem neg_w (a : Tensor) : a.neg.w = a.w := rfl

@[simp] theorem add_n (a b : Tensor) : (a.add b).n = a.n := rfl

@[simp] theorem add_c (a b : Tensor) : (a.add b).c = a.c := rfl

@[simp] theorem add_h (a b : Tensor) : (a.add b).h = a.h := rfl

@[simp] theorem add_w (a b : Tensor) : (a.add b).w = a.w := rfl

@[simp] theorem mul_n (a b : Tensor) : (a.mul b).n = a.n := rfl

@[simp] theorem mul_c (a b : Tensor) : (a.mul b).c = max a.c b.c := rfl

@[simp] theorem mul_h (a b : Tensor) : (a.mul b).h = max a.h b.h := rfl

@[simp] theorem mul_w (a b : Tensor) : (a.mul b).w = max a.w b.w := rfl

@[simp] theorem smul_n (a : Tensor) (q : ℚ) : (a.smul q).n = a.n := rfl

@[simp] theorem smul_c (a : Tensor) (q : ℚ) : (a.smul q).c = a.c := rfl

@[simp] theorem smul_h (a : Tensor) (q : ℚ) : (a.smul q).h = a.h := rfl

@[simp] theorem smul_w (a : Tensor) (q : ℚ) : (a.smul q).w = a.w := rfl

@[simp] theorem subScalar_n (a : Tensor) (q : ℚ) : (a.subScalar q).n = a.n := rfl

@[simp] theorem subScalar_c (a : Tensor) (q : ℚ) : (a.subScalar q).c = a.c := rfl

@[simp] theorem subScalar_h (a : Tensor) (q : ℚ) : (a.subScalar q).h = a.h := rfl

@[simp] theorem subScalar_w (a : Tensor) (q : ℚ) : (a.subScalar q).w = a.w := rfl

@[simp] theorem scalarSub_n (q : ℚ) (a : Tensor) : (Tensor.scalarSub q a).n = a.n := rfl

@[simp] theorem scalarSub_c (q : ℚ) (a : Tensor) : (Tensor.scalarSub q a).c = a.c := rfl

@[simp] theorem scalarSub_h (q : ℚ) (a : Tensor) : (Tensor.scalarSub q a).h = a.h := rfl

@[simp] theorem scalarSub_w (q : ℚ) (a : Tensor) : (Tensor.scalarSub q a).w = a.w := rfl

@[simp] theorem clamp_n (a : Tensor) (lo hi : ℚ) : (a.clamp lo hi).n = a.n := rfl

@[simp] theorem clamp_c (a : Tensor) (lo hi : ℚ) : (a.clamp lo hi).c = a.c := rfl

@[simp] theorem clamp_h (a : Tensor) (lo hi : ℚ) : (a.clamp lo hi).h = a.h := rfl

@[simp] theorem clamp_w (a : Tensor) (lo hi : ℚ) : (a.clamp lo hi).w = a.w := rfl

@[simp] theorem meanW_n (a : Tensor) : a.meanW.n = a.n := rfl

@[simp] theorem meanW_c (a : Tensor) : a.meanW.c = a.c := rfl

@[simp] theorem meanW_h (a : Tensor) : a.meanW.h = a.h := rfl

@[simp] theorem meanW_w (a : Tensor) : a.meanW.w = 1 := rfl

@[simp] theorem meanH_n (a : Tensor) : a.meanH.n = a.n := rfl

@[simp] theorem meanH_c (a : Tensor) : a.meanH.c = a.c := rfl

@[simp] theorem meanH_h (a : Tensor) : a.meanH.h = 1 := rfl

@[simp] theorem meanH_w (a : Tensor) : a.meanH.w = a.w := rfl

@[simp] theorem pixelShuffle2_n (a : Tensor) : a.pixelShuffle2.n = a.n := rfl

@[simp] theorem pixelShuffle2_c (a : Tensor) : a.pixelShuffle2.c = a.c / 4 := rfl

@[simp] theorem pixelShuffle2_h (a : Tensor) : a.pixelShuffle2.h = 2 * a.h := rfl

@[simp] theorem pixelShuffle2_w (a : Tensor) : a.pixelShuffle2.w = 2 * a.w := rfl

@[simp] theorem warp_n (E : Ext) (a f : Tensor) : (warp E a f).n = a.n := rfl

@[simp] theorem warp_c (E : Ext) (a f : Tensor) : (warp E a f).c = a.c := rfl

@[simp] theorem warp_h (E : Ext) (a f : Tensor) : (warp E a f).h = a.h := rfl

@[simp] theorem warp_w (E : Ext) (a f : Tensor) : (warp E a f).w = a.w := rfl

@[simp] theorem interpolate_n (E : Ext) (a : Tensor) (s : ℚ) : (interpolate E a s).n = a.n := rfl

@[simp] theorem interpolate_c (E : Ext) (a : Tensor) (s : ℚ) : (interpolate E a s).c = a.c := rfl

@[simp] theorem interpolate_h (E : Ext) (a : Tensor) (s : ℚ) :
    (interpolate E a s).h = interpDim a.h s := rfl

@[simp] theorem interpolate_w (E : Ext) (a : Tensor) (s : ℚ) :
    (interpolate E a s).w = interpDim a.w s := rfl

@[simp] theorem sigmoidT_n (E : Ext) (a : Tensor) : (sigmoidT E a).n = a.n := rfl

@[simp] theorem sigmoidT_c (E : Ext) (a : Tensor) : (sigmoidT E a).c = a.c := rfl

@[simp] theorem sigmoidT_h (E : Ext) (a : Tensor) : (sigmoidT E a).h = a.h := rfl

@[simp] theorem sigmoidT_w (E : Ext) (a : Tensor) : (sigmoidT E a).w = a.w := rfl

@[simp] theorem conv2d_n (m : Conv2d) (x : Tensor) : (m.fwd x).n = x.n := rfl

@[simp] theorem conv2d_c (m : Conv2d) (x : Tensor) : (m.fwd x).c = m.outC := rfl

@[simp] theorem conv2d_h (m : Conv2d) (x : Tensor) :
    (m.fwd x).h = convDim x.h m.k m.s m.p m.d := rfl

@[simp] theorem conv2d_w (m : Conv2d) (x : Tensor) :
    (m.fwd x).w = convDim x.w m.k m.s m.p m.d := rfl

@[simp] theorem convT_n (m : ConvT2d) (x : Tensor) : (m.fwd x).n = x.n := rfl

@[simp] theorem convT_c (m : ConvT2d) (x : Tensor) : (m.fwd x).c = m.outC := rfl

@[simp] theorem convT_h (m : ConvT2d) (x : Tensor) :
    (m.fwd x).h = deconvDim x.h m.k m.s m.p := rfl

@[simp] theorem convT_w (m : ConvT2d) (x : Tensor) :
    (m.fwd x).w = deconvDim x.w m.k m.s m.p := rfl

@[simp] theorem bn_n (m : BatchNorm2d) (x : Tensor) : (m.fwd x).n = x.n := rfl

@[simp] theorem bn_c (m : BatchNorm2d) (x : Tensor) : (m.fwd x).c = x.c := rfl

@[simp] theorem bn_h (m : BatchNorm2d) (x : Tensor) : (m.fwd x).h = x.h := rfl

@[simp] theorem bn_w (m : BatchNorm2d) (x : Tensor) : (m.fwd x).w = x.w := rfl

@[simp] theorem prelu_n (m : PReLU) (x : Tensor) : (m.fwd x).n = x.n := rfl

@[simp] theorem prelu_c (m : PReLU) (x : Tensor) : (m.fwd x).c = x.c := rfl

@[simp] theorem prelu_h (m : PReLU) (x : Tensor) : (m.fwd x).h = x.h := rfl

@[simp] theorem prelu_w (m : PReLU) (x : Tensor) : (m.fwd x).w = x.w := rfl

@[simp] theorem seqFwd_nil (x : Tensor) : seqFwd [] x = x := rfl

@[simp] theorem seqFwd_cons (l : Layer) (ls : List Layer) (x : Tensor) :
    seqFwd (l :: ls) x = seqFwd ls (l.fwd x) := rfl

/-! ### Arithmetic facts about the dimension formulas -/

theorem convDim_stride2_k3 (m : Nat) (hm : 1 ≤ m) : convDim (2 * m) 3 2 1 1 = m := by
  unfold convDim; omega

theorem convDim_stride1_k3 (n : Nat) (hn : 1 ≤ n) : convDim n 3 1 1 1 = n := by
  unfold convDim; omega

theorem convDim_stride1_k5 (n : Nat) (hn : 1 ≤ n) : convDim n 5 1 2 1 = n := by
  unfold convDim; omega

theorem convDim_stride2_k5 (m : Nat) (hm : 1 ≤ m) : convDim (2 * m) 5 2 2 1 = m := by
  unfold convDim; omega

theorem convDim_pos (n k s p d : Nat) : 1 ≤ convDim n k s p d :=
  Nat.succ_le_succ (Nat.zero_le _)

theorem deconvDim_double (n : Nat) (hn : 1 ≤ n) : deconvDim n 4 2 1 = 2 * n := by
  unfold deconvDim; omega

theorem interpDim_eq (n m : Nat) (s : ℚ) (h : (n : ℚ) * s = (m : ℚ)) :
    interpDim n s = m := by
  unfold interpDim
  rw [h, Int.floor_natCast, Int.toNat_natCast]

theorem interpDim_half (m : Nat) : interpDim (2 * m) ((1 : ℚ) / 2) = m := by
  refine interpDim_eq _ _ _ ?_
  push_cast
  ring

theorem interpDim_double (m : Nat) : interpDim m (2 : ℚ) = 2 * m := by
  refine interpDim_eq _ _ _ ?_
  push_cast
  ring

theorem interpDim_half_div (n : Nat) : interpDim n ((1 : ℚ) / 2) = n / 2 := by
  unfold interpDim
  rw [show (n : ℚ) * (1 / 2) = (n : ℚ) / ((2 : ℕ) : ℚ) by push_cast; ring]
  rw [Rat.floor_natCast_div_natCast]
  omega

theorem interpDim_inv_two (n : Nat) : interpDim n ((2 : ℚ)⁻¹) = n / 2 := by
  rw [show ((2 : ℚ)⁻¹) = (1 : ℚ) / 2 by norm_num]
  exact interpDim_half_div n

/-! ### Evaluation lemmas: each `forward` with the modes the repository
actually constructs succeeds and computes the corresponding total run -/

theorem ResBlock.forward_rife (E : Ext) (m : ResBlock) (x : Tensor)
    (h : m.mode = some "rife") :
    ResBlock.forward E m x = some (ResBlock.runRife E m x) := by
  simp [ResBlock.forward, ResBlock.conv1, ResBlock.conv2, conv, conv_woact, h,
    ResBlock.runRife]

theorem ResBlock.forward_ifnet (E : Ext) (m : ResBlock) (x : Tensor)
    (h : m.mode = some "ifnet") :
    ResBlock.forward E m x = some (ResBlock.runIfnet E m x) := by
  simp [ResBlock.forward, ResBlock.conv1, ResBlock.conv2, conv, conv_woact, h,
    ResBlock.runIfnet]

theorem IFBlock.forward_run (E : Ext) (m : IFBlock) (x : Tensor) :
    IFBlock.forward E m x = some (IFBlock.run E m x) := by
  simp [IFBlock.forward, IFBlock.run, IFBlock.conv0, conv,
    IFBlock.res0, IFBlock.res1, IFBlock.res2, IFBlock.res3, IFBlock.res4, IFBlock.res5,
    ResBlock.forward_ifnet]

theorem IFNet.forward_cascade (E : Ext) (P : IFNetP) (x : Tensor) :
    IFNet.forward E P x =
      some (IFNet.F4 E P x,
        [IFNet.F1 E P x, IFNet.F2 E P x, IFNet.F3 E P x, IFNet.F4 E P x]) := by
  simp [IFNet.forward, IFBlock.forward_run, IFNet.F1, IFNet.F2, IFNet.F3, IFNet.F4,
    IFNet.flow0, IFNet.flow1, IFNet.flow2, IFNet.flow3,
    IFNet.input0, IFNet.input1, IFNet.input2, IFNet.input3]

theorem ContextNet.forward_pyramid (E : Ext) (m : ContextNet) (x flow : Tensor) :
    ContextNet.forward E m x flow = some (ContextNet.levels E m x flow) := by
  simp [ContextNet.forward, ContextNet.conv0, conv, ResBlock.forward_rife,
    ContextNet.conv1, ContextNet.conv2, ContextNet.conv3, ContextNet.conv4,
    ContextNet.levels, ContextNet.f1, ContextNet.f2, ContextNet.f3, ContextNet.f4,
    ContextNet.x1, ContextNet.x2, ContextNet.x3, ContextNet.x4]

theorem FusionNet.forward_total (E : Ext) (m : FusionNet) (img0 img1 flow : Tensor)
    (c0 c1 : List Tensor) (flow_gt : Option Tensor) :
    FusionNet.forward E m img0 img1 flow c0 c1 flow_gt =
      some (FusionNet.run E m img0 img1 flow c0 c1 flow_gt) := by
  simp [FusionNet.forward, FusionNet.run, FusionNet.conv0, conv, ResBlock.forward_rife,
    FusionNet.down0, FusionNet.down1, FusionNet.down2, FusionNet.down3,
    FusionNet.preShuffle]

theorem seq_rifeConv_n (P : ConvP) (i o k s p d : Nat) (x : Tensor) :
    (seqFwd (rifeConvLayers P i o k s p d) x).n = x.n := by
  simp [rifeConvLayers, Layer.fwd]

theorem seq_rifeConv_c (P : ConvP) (i o k s p d : Nat) (x : Tensor) :
    (seqFwd (rifeConvLayers P i o k s p d) x).c = o := by
  simp [rifeConvLayers, Layer.fwd]

theorem seq_rifeConv_h (P : ConvP) (i o k s p d : Nat) (x : Tensor) :
    (seqFwd (rifeConvLayers P i o k s p d) x).h = convDim x.h k s p d := by
  simp [rifeConvLayers, Layer.fwd]

theorem seq_rifeConv_w (P : ConvP) (i o k s p d : Nat) (x : Tensor) :
    (seqFwd (rifeConvLayers P i o k s p d) x).w = convDim x.w k s p d := by
  simp [rifeConvLayers, Layer.fwd]

theorem seq_ifnetConv_n (P : ConvP) (i o k s p d : Nat) (x : Tensor) :
    (seqFwd (ifnetConvLayers P i o k s p d) x).n = x.n := by
  simp [ifnetConvLayers, Layer.fwd]

theorem seq_ifnetConv_c (P : ConvP) (i o k s p d : Nat) (x : Tensor) :
    (seqFwd (ifnetConvLayers P i o k s p d) x).c = o := by
  simp [ifnetConvLayers, Layer.fwd]

theorem seq_ifnetConv_h (P : ConvP) (i o k s p d : Nat) (x : Tensor) :
    (seqFwd (ifnetConvLayers P i o k s p d) x).h = convDim x.h k s p d := by
  simp [ifnetConvLayers, Layer.fwd]

theorem seq_ifnetConv_w (P : ConvP) (i o k s p d : Nat) (x : Tensor) :
    (seqFwd (ifnetConvLayers P i o k s p d) x).w = convDim x.w k s p d := by
  simp [ifnetConvLayers, Layer.fwd]

theorem seq_deconv_n (P : DeconvP) (i o : Nat) (x : Tensor) :
    (seqFwd (deconv P i o) x).n = x.n := by
  simp [deconv, Layer.fwd]

theorem seq_deconv_c (P : DeconvP) (i o : Nat) (x : Tensor) :
    (seqFwd (deconv P i o) x).c = o := by
  simp [deconv, Layer.fwd]

theorem seq_deconv_h (P : DeconvP) (i o : Nat) (x : Tensor) :
    (seqFwd (deconv P i o) x).h = deconvDim x.h 4 2 1 := by
  simp [deconv, Layer.fwd]

theorem seq_deconv_w (P : DeconvP) (i o : Nat) (x : Tensor) :
    (seqFwd (deconv P i o) x).w = deconvDim x.w 4 2 1 := by
  simp [deconv, Layer.fwd]

theorem convDim_unit : convDim 1 1 1 0 1 = 1 := rfl

theorem ResBlock.runRife_n (E : Ext) (m : ResBlock) (x : Tensor) :
    (ResBlock.runRife E m x).n = x.n := by
  simp [ResBlock.runRife, ResBlock.body, rifeConvLayers, rifeWoLayers, Layer.fwd]

theorem ResBlock.runRife_c (E : Ext) (m : ResBlock) (x : Tensor) :
    (ResBlock.runRife E m x).c = m.out_planes := by
  simp [ResBlock.runRife, ResBlock.body, rifeConvLayers, rifeWoLayers, Layer.fwd,
    ResBlock.fc2, ResBlock.relu2]

theorem ResBlock.runRife_h (E : Ext) (m : ResBlock) (x : Tensor) :
    (ResBlock.runRife E m x).h = convDim (convDim x.h 3 m.stride 1 1) 3 1 1 1 := by
  simp [ResBlock.runRife, ResBlock.body, rifeConvLayers, rifeWoLayers, Layer.fwd,
    ResBlock.fc1, ResBlock.fc2, ResBlock.relu1, ResBlock.relu2, convDim_unit]
  have := convDim_pos (convDim x.h 3 m.stride 1 1) 3 1 1 1
  omega

theorem ResBlock.runRife_w (E : Ext) (m : ResBlock) (x : Tensor) :
    (ResBlock.runRife E m x).w = convDim (convDim x.w 3 m.stride 1 1) 3 1 1 1 := by
  simp [ResBlock.runRife, ResBlock.body, rifeConvLayers, rifeWoLayers, Layer.fwd,
    ResBlock.fc1, ResBlock.fc2, ResBlock.relu1, ResBlock.relu2, convDim_unit]
  have := convDim_pos (convDim x.w 3 m.stride 1 1) 3 1 1 1
  omega

theorem ResBlock.runIfnet_n (E : Ext) (m : ResBlock) (x : Tensor) :
    (ResBlock.runIfnet E m x).n = x.n := by
  simp [ResBlock.runIfnet, ResBlock.body, ifnetConvLayers, ifnetWoLayers, Layer.fwd]

theorem ResBlock.runIfnet_c (E : Ext) (m : ResBlock) (x : Tensor) :
    (ResBlock.runIfnet E m x).c = m.out_planes := by
  simp [ResBlock.runIfnet, ResBlock.body, ifnetConvLayers, ifnetWoLayers, Layer.fwd,
    ResBlock.fc2, ResBlock.relu2]

theorem ResBlock.runIfnet_h (E : Ext) (m : ResBlock) (x : Tensor) :
    (ResBlock.runIfnet E m x).h = convDim (convDim x.h 5 m.stride 2 1) 3 1 1 1 := by
  simp [ResBlock.runIfnet, ResBlock.body, ifnetConvLayers, ifnetWoLayers, Layer.fwd,
    ResBlock.fc1, ResBlock.fc2, ResBlock.relu1, ResBlock.relu2, convDim_unit]
  have := convDim_pos (convDim x.h 5 m.stride 2 1) 3 1 1 1
  omega

theorem ResBlock.runIfnet_w (E : Ext) (m : ResBlock) (x : Tensor) :
    (ResBlock.runIfnet E m x).w = convDim (convDim x.w 5 m.stride 2 1) 3 1 1 1 := by
  simp [ResBlock.runIfnet, ResBlock.body, ifnetConvLayers, ifnetWoLayers, Layer.fwd,
    ResBlock.fc1, ResBlock.fc2, ResBlock.relu1, ResBlock.relu2, convDim_unit]
  have := convDim_pos (convDim x.w 5 m.stride 2 1) 3 1 1 1
  omega

theorem FusionNet.out_h (E : Ext) (m : FusionNet) (i0 i1 fl : Tensor) (c0 c1 : List Tensor)
    (fgt : Option Tensor) (a : Nat) (ha : i0.h = 32 * a) (h1 : 1 ≤ a) :
    (FusionNet.run E m i0 i1 fl c0 c1 fgt).out.h = 32 * a := by
  simp only [FusionNet.run, FusionNet.preShuffle, pixelShuffle2_h, conv2d_h,
    seq_deconv_h, seq_rifeConv_h, cat_h, warp_h, ResBlock.runRife_h,
    FusionNet.convOut, FusionNet.up0, FusionNet.up1, FusionNet.up2, FusionNet.up3,
    FusionNet.down0, FusionNet.down1, FusionNet.down2, FusionNet.down3,
    ha, convDim, deconvDim]
  omega

theorem FusionNet.out_w (E : Ext) (m : FusionNet) (i0 i1 fl : Tensor) (c0 c1 : List Tensor)
    (fgt : Option Tensor) (b : Nat) (hb : i0.w = 32 * b) (h1 : 1 ≤ b) :
    (FusionNet.run E m i0 i1 fl c0 c1 fgt).out.w = 32 * b := by
  simp only [FusionNet.run, FusionNet.preShuffle, pixelShuffle2_w, conv2d_w,
    seq_deconv_w, seq_rifeConv_w, cat_w, warp_w, ResBlock.runRife_w,
    FusionNet.convOut, FusionNet.up0, FusionNet.up1, FusionNet.up2, FusionNet.up3,
    FusionNet.down0, FusionNet.down1, FusionNet.down2, FusionNet.down3,
    hb, convDim, deconvDim]
  omega

theorem RIFE.forward_unfold (E : Ext) (m : RIFEP) (img0 img1 : Tensor)
    (imgs flow : Option Tensor) (training : Bool) (flow_gt : Option Tensor) :
    RIFE.forward E m img0 img1 imgs flow training flow_gt =
      some (if training then
        RIFEOut.train (RIFE.pred E m img0 img1 flow_gt) (RIFE.mask E m img0 img1 flow_gt)
          (RIFE.merged E m img0 img1 flow_gt) (RIFE.fusion E m img0 img1 flow_gt).w0
          (RIFE.fusion E m img0 img1 flow_gt).w1 (RIFE.fusion E m img0 img1 flow_gt).g0
          (RIFE.fusion E m img0 img1 flow_gt).g1
      else RIFEOut.infer (RIFE.pred E m img0 img1 flow_gt)) := by
  cases training <;>
    simp [RIFE.forward, IFNet.forward_cascade, ContextNet.forward_pyramid, FusionNet.forward_total,
      RIFE.pred, RIFE.merged, RIFE.mask, RIFE.res, RIFE.refine, RIFE.fusion,
      RIFE.flowFull, RIFE.flowHalf, RIFE.img0s, RIFE.img1s]

/-! ### Claim theorems -/

/-- C10: `RIFE.forward` ignores its `imgs` and `flow` keyword arguments:
two calls with the same `img0`, `img1`, `training` and `flow_gt` but
different `imgs` and `flow` return identical results, because both
parameters are overwritten before first use. -/
theorem RIFE.ignores_imgs_flow_args (E : Ext) (m : RIFEP) (img0 img1 : Tensor)
    (imgsA flowA imgsB flowB : Option Tensor) (training : Bool) (flow_gt : Option Tensor) :
    RIFE.forward E m img0 img1 imgsA flowA training flow_gt =
      RIFE.forward E m img0 img1 imgsB flowB training flow_gt := rfl

/-- C5: for any mode other than `'rife'` and `'ifnet'` (including the
default `None`) the factory functions `conv` and `conv_woact` return no
module at all, without raising; for `'rife'` and for `'ifnet'` both
return a module. -/
theorem conv_factory_mode_dispatch (P Q : ConvP)
    (in_planes out_planes kernel_size stride padding dilation : Nat) (mode : Option String) :
    (mode ≠ some "rife" → mode ≠ some "ifnet" →
      conv P in_planes out_planes kernel_size stride padding dilation mode = none ∧
      conv_woact Q in_planes out_planes kernel_size stride padding dilation mode = none) ∧
    (conv P in_planes out_planes kernel_size stride padding dilation (some "rife")).isSome ∧
    (conv P in_planes out_planes kernel_size stride padding dilation (some "ifnet")).isSome ∧
    (conv_woact Q in_planes out_planes kernel_size stride padding dilation
      (some "rife")).isSome ∧
    (conv_woact Q in_planes out_planes kernel_size stride padding dilation
      (some "ifnet")).isSome := by
  constructor
  · intro h1 h2
    simp [conv, conv_woact, h1, h2]
  · simp [conv, conv_woact]

/-- Witness for C5 at a concrete unrecognized mode (the default `None`). -/
theorem conv_factory_mode_dispatch_witness :
    (none ≠ some "rife") ∧
    conv zeroConvP 3 16 3 1 1 1 none = none ∧
    conv_woact zeroConvP 3 16 3 1 1 1 none = none := by
  refine ⟨by simp, ?_⟩
  exact (conv_factory_mode_dispatch zeroConvP zeroConvP 3 16 3 1 1 1 none).1
    (by simp) (by simp)

/-- C4: `FusionNet.forward` returns ground-truth warps that are both
`None` exactly when `flow_gt` is `None`; when `flow_gt` is supplied they
are `img0` warped by its first two channels and `img1` warped by channels
2..4. -/
theorem FusionNet.gt_warp_nullability (E : Ext) (m : FusionNet) (img0 img1 flow : Tensor)
    (c0 c1 : List Tensor) (flow_gt : Option Tensor) :
    FusionNet.forward E m img0 img1 flow c0 c1 flow_gt =
      some (FusionNet.run E m img0 img1 flow c0 c1 flow_gt) ∧
    (FusionNet.run E m img0 img1 flow c0 c1 flow_gt).g0 =
      flow_gt.map (fun g => warp E img0 (g.sliceC 0 2)) ∧
    (FusionNet.run E m img0 img1 flow c0 c1 flow_gt).g1 =
      flow_gt.map (fun g => warp E img1 (g.sliceC 2 4)) ∧
    (((FusionNet.run E m img0 img1 flow c0 c1 flow_gt).g0 = none ∧
      (FusionNet.run E m img0 img1 flow c0 c1 flow_gt).g1 = none) ↔ flow_gt = none) := by
  refine ⟨FusionNet.forward_total E m img0 img1 flow c0 c1 flow_gt, ?_, ?_, ?_⟩ <;>
    cases flow_gt <;> simp [FusionNet.run, FusionNet.gtWarps]

/-- C2: `IFNet.forward` returns the pair of the final cumulative flow
`F4`, equal elementwise to `flow0 + flow1 + flow2 + flow3`, and the list
of the four cumulative flows, `F_k` being the elementwise sum of the
per-stage flows `0 .. k-1`. -/
theorem IFNet.cumulative_flow_sums (E : Ext) (P : IFNetP) (x : Tensor) :
    IFNet.forward E P x =
      some (IFNet.F4 E P x,
        [IFNet.F1 E P x, IFNet.F2 E P x, IFNet.F3 E P x, IFNet.F4 E P x]) ∧
    (∀ n c y xo, (IFNet.F4 E P x).data n c y xo =
      (IFNet.flow0 E P x).data n c y xo + (IFNet.flow1 E P x).data n c y xo +
        (IFNet.flow2 E P x).data n c y xo + (IFNet.flow3 E P x).data n c y xo) ∧
    (∀ n c y xo, (IFNet.F1 E P x).data n c y xo = (IFNet.flow0 E P x).data n c y xo) ∧
    (∀ n c y xo, (IFNet.F2 E P x).data n c y xo =
      (IFNet.flow0 E P x).data n c y xo + (IFNet.flow1 E P x).data n c y xo) ∧
    (∀ n c y xo, (IFNet.F3 E P x).data n c y xo =
      (IFNet.flow0 E P x).data n c y xo + (IFNet.flow1 E P x).data n c y xo +
        (IFNet.flow2 E P x).data n c y xo) := by
  refine ⟨IFNet.forward_cascade E P x, ?_, ?_, ?_, ?_⟩ <;> intro n c y xo <;>
    simp [IFNet.F1, IFNet.F2, IFNet.F3, IFNet.F4, Tensor.add]

/-- C3 counterexample: at a concrete well-formed input, the first tensor
returned by `FusionNet.forward` has 4 channels, not 16 (the 16-channel
conv output is pixel-shuffled, which divides the channel count by 4).
The input is one the network genuinely accepts: two 3-channel 32×32
frames and a 2-channel 32×32 flow, so `cat(warped0, warped1, flow)` has
the 8 channels `conv0` expects; the two context pyramids have the exact
channel counts and spatial sizes `ContextNet` produces at 32×32 (32@8×8,
64@4×4, 128@2×2, 256@1×1), matching every encoder concatenation
(64+32+32=128=4c, 128+64+64=256=8c, 256+128+128=512=16c,
512+256+256=1024=32c) and every decoder skip concatenation. -/
theorem FusionNet.sixteen_channel_refuted :
    (FusionNet.forward E0 ⟨32, zeroFusionNetP⟩ (T0 1 3 32 32) (T0 1 3 32 32) (T0 1 2 32 32)
      [T0 1 32 8 8, T0 1 64 4 4, T0 1 128 2 2, T0 1 256 1 1]
      [T0 1 32 8 8, T0 1 64 4 4, T0 1 128 2 2, T0 1 256 1 1] none).map
        (fun r => r.out.c) = some 4 ∧ (4 : Nat) ≠ 16 := by
  constructor
  · rw [FusionNet.forward_total]
    simp [FusionNet.run, FusionNet.preShuffle, FusionNet.convOut]
  · decide

/-- C3 as amended: the first tensor returned by `FusionNet.forward` is
the pixel shuffle of the 16-channel pre-shuffle conv output and has
exactly 4 channels (3 residual-color channels plus 1 mask channel). -/
theorem FusionNet.four_channel_output (E : Ext) (m : FusionNet) (img0 img1 flow : Tensor)
    (c0 c1 : List Tensor) (flow_gt : Option Tensor) :
    FusionNet.forward E m img0 img1 flow c0 c1 flow_gt =
      some (FusionNet.run E m img0 img1 flow c0 c1 flow_gt) ∧
    (FusionNet.run E m img0 img1 flow c0 c1 flow_gt).out =
      Tensor.pixelShuffle2 (FusionNet.preShuffle E m img0 img1 flow c0 c1) ∧
    (FusionNet.preShuffle E m img0 img1 flow c0 c1).c = 16 ∧
    (FusionNet.run E m img0 img1 flow c0 c1 flow_gt).out.c = 4 := by
  refine ⟨FusionNet.forward_total E m img0 img1 flow c0 c1 flow_gt, rfl, ?_, ?_⟩ <;>
    simp [FusionNet.run, FusionNet.preShuffle, FusionNet.convOut]

/-- C8 counterexample: stage 0's `IFBlock` does not receive the raw
concatenated frame pair: at a concrete 2×2 input the tensor it receives
has been downsampled to half resolution first. -/
theorem IFNet.stage0_raw_refuted : IFNet.input0 E0 (T0 1 6 2 2) ≠ T0 1 6 2 2 := by
  intro h
  have hh : (IFNet.input0 E0 (T0 1 6 2 2)).h = (T0 1 6 2 2).h := congrArg Tensor.h h
  have h2 : interpDim 2 ((1 : ℚ) / 2) = 1 := by
    have := interpDim_half 1
    norm_num at this
    exact this
  simp [IFNet.input0, T0] at hh
  rw [show ((2 : ℚ)⁻¹) = (1 : ℚ) / 2 by norm_num, h2] at hh
  exact absurd hh (by decide)

/-- C8 as amended: `IFNet.forward` has exactly four cascade stages; stage
0's `IFBlock` receives the concatenated frame pair after the shared 0.5×
bilinear downsampling (unwarped), and each later stage receives the
concatenation of the downsampled frame 0 warped by the flow accumulated
through the previous stages, the downsampled frame 1 warped by its
negation, and that accumulated flow itself. -/
theorem IFNet.cascade_stage_inputs (E : Ext) (P : IFNetP) (x : Tensor) :
    IFNet.forward E P x =
      some (IFNet.F4 E P x,
        [IFNet.F1 E P x, IFNet.F2 E P x, IFNet.F3 E P x, IFNet.F4 E P x]) ∧
    IFNet.input0 E x = interpolate E x ((1 : ℚ) / 2) ∧
    IFNet.flow0 E P x = (IFNet.block0 P).run E (IFNet.input0 E x) ∧
    IFNet.input1 E P x =
      Tensor.cat
        (Tensor.cat (warp E ((IFNet.input0 E x).sliceC 0 3) (IFNet.flow0 E P x))
          (warp E ((IFNet.input0 E x).sliceFrom 3) (Tensor.neg (IFNet.flow0 E P x))))
        (IFNet.flow0 E P x) ∧
    IFNet.flow1 E P x = (IFNet.block1 P).run E (IFNet.input1 E P x) ∧
    IFNet.input2 E P x =
      Tensor.cat
        (Tensor.cat
          (warp E ((IFNet.input0 E x).sliceC 0 3)
            (Tensor.add (IFNet.flow0 E P x) (IFNet.flow1 E P x)))
          (warp E ((IFNet.input0 E x).sliceFrom 3)
            (Tensor.neg (Tensor.add (IFNet.flow0 E P x) (IFNet.flow1 E P x)))))
        (Tensor.add (IFNet.flow0 E P x) (IFNet.flow1 E P x)) ∧
    IFNet.flow2 E P x = (IFNet.block2 P).run E (IFNet.input2 E P x) ∧
    IFNet.input3 E P x =
      Tensor.cat
        (Tensor.cat
          (warp E ((IFNet.input0 E x).sliceC 0 3)
            (Tensor.add (Tensor.add (IFNet.flow0 E P x) (IFNet.flow1 E P x))
              (IFNet.flow2 E P x)))
          (warp E ((IFNet.input0 E x).sliceFrom 3)
            (Tensor.neg (Tensor.add (Tensor.add (IFNet.flow0 E P x) (IFNet.flow1 E P x))
              (IFNet.flow2 E P x)))))
        (Tensor.add (Tensor.add (IFNet.flow0 E P x) (IFNet.flow1 E P x))
          (IFNet.flow2 E P x)) ∧
    IFNet.flow3 E P x = (IFNet.block3 P).run E (IFNet.input3 E P x) := by
  exact ⟨IFNet.forward_cascade E P x, rfl, rfl, rfl, rfl, rfl, rfl, rfl, rfl⟩

/-- C7: `ContextNet.forward` returns exactly 4 feature levels; the flow
warping level `i` is obtained from level `i-1`'s flow by the
halve-and-scale step, never recomputed from the original flow; and each
level has half the spatial resolution of the previous one.  The
hypotheses are the warp primitive's documented precondition at each
level — the halved flow's resolution matches the feature it warps —
which is exactly the regime in which the real forward runs (they also
force every intermediate bilinear resize to a positive size).  From
them the exact halving follows: the stride-2 convolution chain takes
ceilings while the flow chain takes floors, and their agreement at
every level forces each level size to be even. -/
theorem ContextNet.pyramid_levels (E : Ext) (m : ContextNet) (x flow : Tensor)
    (h1h : (ContextNet.hFlow E flow).h = (ContextNet.x1 E m x).h)
    (h1w : (ContextNet.hFlow E flow).w = (ContextNet.x1 E m x).w)
    (h2h : (ContextNet.hFlow E (ContextNet.hFlow E flow)).h = (ContextNet.x2 E m x).h)
    (h2w : (ContextNet.hFlow E (ContextNet.hFlow E flow)).w = (ContextNet.x2 E m x).w)
    (h3h : (ContextNet.hFlow E (ContextNet.hFlow E (ContextNet.hFlow E flow))).h =
      (ContextNet.x3 E m x).h)
    (h3w : (ContextNet.hFlow E (ContextNet.hFlow E (ContextNet.hFlow E flow))).w =
      (ContextNet.x3 E m x).w)
    (h4h : (ContextNet.hFlow E
        (ContextNet.hFlow E (ContextNet.hFlow E (ContextNet.hFlow E flow)))).h =
      (ContextNet.x4 E m x).h)
    (h4w : (ContextNet.hFlow E
        (ContextNet.hFlow E (ContextNet.hFlow E (ContextNet.hFlow E flow)))).w =
      (ContextNet.x4 E m x).w) :
    ContextNet.forward E m x flow = some (ContextNet.levels E m x flow) ∧
    (ContextNet.levels E m x flow).length = 4 ∧
    ContextNet.f1 E m x flow = warp E (ContextNet.x1 E m x) (ContextNet.hFlow E flow) ∧
    ContextNet.f2 E m x flow =
      warp E (ContextNet.x2 E m x) (ContextNet.hFlow E (ContextNet.hFlow E flow)) ∧
    ContextNet.f3 E m x flow =
      warp E (ContextNet.x3 E m x)
        (ContextNet.hFlow E (ContextNet.hFlow E (ContextNet.hFlow E flow))) ∧
    ContextNet.f4 E m x flow =
      warp E (ContextNet.x4 E m x)
        (ContextNet.hFlow E
          (ContextNet.hFlow E (ContextNet.hFlow E (ContextNet.hFlow E flow)))) ∧
    2 * (ContextNet.f2 E m x flow).h = (ContextNet.f1 E m x flow).h ∧
    2 * (ContextNet.f2 E m x flow).w = (ContextNet.f1 E m x flow).w ∧
    2 * (ContextNet.f3 E m x flow).h = (ContextNet.f2 E m x flow).h ∧
    2 * (ContextNet.f3 E m x flow).w = (ContextNet.f2 E m x flow).w ∧
    2 * (ContextNet.f4 E m x flow).h = (ContextNet.f3 E m x flow).h ∧
    2 * (ContextNet.f4 E m x flow).w = (ContextNet.f3 E m x flow).w := by
  refine ⟨ContextNet.forward_pyramid E m x flow, rfl, rfl, rfl, rfl, rfl,
    ?_, ?_, ?_, ?_, ?_, ?_⟩ <;>
  · simp only [ContextNet.f1, ContextNet.f2, ContextNet.f3, ContextNet.f4,
      ContextNet.x1, ContextNet.x2, ContextNet.x3, ContextNet.x4,
      ContextNet.hFlow, ContextNet.conv1, ContextNet.conv2, ContextNet.conv3,
      ContextNet.conv4, warp_h, warp_w, smul_h, smul_w, interpolate_h, interpolate_w,
      ResBlock.runRife_h, ResBlock.runRife_w, seq_rifeConv_h, seq_rifeConv_w,
      interpDim_half_div, convDim] at h1h h1w h2h h2w h3h h3w h4h h4w ⊢
    omega

/-- Witness for C7 at a concrete 32×32 image with a 16×16 flow (the
half-resolution flow `RIFE.forward` actually feeds `ContextNet`), where
every level's halved flow matches its feature resolution. -/
theorem ContextNet.pyramid_levels_witness :
    (ContextNet.hFlow E0 (T0 1 2 16 16)).h =
      (ContextNet.x1 E0 ⟨32, zeroContextNetP⟩ (T0 1 3 32 32)).h ∧
    (ContextNet.levels E0 ⟨32, zeroContextNetP⟩ (T0 1 3 32 32) (T0 1 2 16 16)).length = 4 :=
  ⟨by simp [ContextNet.hFlow, ContextNet.x1, ContextNet.conv1, T0, interpDim_half_div, interpDim_inv_two,
      ResBlock.runRife_h, seq_rifeConv_h, convDim],
    (ContextNet.pyramid_levels E0 ⟨32, zeroContextNetP⟩ (T0 1 3 32 32) (T0 1 2 16 16)
      (by simp [ContextNet.hFlow, ContextNet.x1, ContextNet.conv1, T0, interpDim_half_div, interpDim_inv_two,
        ResBlock.runRife_h, seq_rifeConv_h, convDim])
      (by simp [ContextNet.hFlow, ContextNet.x1, ContextNet.conv1, T0, interpDim_half_div, interpDim_inv_two,
        ResBlock.runRife_w, seq_rifeConv_w, convDim])
      (by simp [ContextNet.hFlow, ContextNet.x1, ContextNet.x2, ContextNet.conv1,
        ContextNet.conv2, T0, interpDim_half_div, interpDim_inv_two, ResBlock.runRife_h, seq_rifeConv_h,
        convDim])
      (by simp [ContextNet.hFlow, ContextNet.x1, ContextNet.x2, ContextNet.conv1,
        ContextNet.conv2, T0, interpDim_half_div, interpDim_inv_two, ResBlock.runRife_w, seq_rifeConv_w,
        convDim])
      (by simp [ContextNet.hFlow, ContextNet.x1, ContextNet.x2, ContextNet.x3,
        ContextNet.conv1, ContextNet.conv2, ContextNet.conv3, T0, interpDim_half_div, interpDim_inv_two,
        ResBlock.runRife_h, seq_rifeConv_h, convDim])
      (by simp [ContextNet.hFlow, ContextNet.x1, ContextNet.x2, ContextNet.x3,
        ContextNet.conv1, ContextNet.conv2, ContextNet.conv3, T0, interpDim_half_div, interpDim_inv_two,
        ResBlock.runRife_w, seq_rifeConv_w, convDim])
      (by simp [ContextNet.hFlow, ContextNet.x1, ContextNet.x2, ContextNet.x3,
        ContextNet.x4, ContextNet.conv1, ContextNet.conv2, ContextNet.conv3,
        ContextNet.conv4, T0, interpDim_half_div, interpDim_inv_two, ResBlock.runRife_h, seq_rifeConv_h,
        convDim])
      (by simp [ContextNet.hFlow, ContextNet.x1, ContextNet.x2, ContextNet.x3,
        ContextNet.x4, ContextNet.conv1, ContextNet.conv2, ContextNet.conv3,
        ContextNet.conv4, T0, interpDim_half_div, interpDim_inv_two, ResBlock.runRife_w, seq_rifeConv_w,
        convDim])).2.1⟩

/-- C9: a `ResBlock` with `in_planes == out_planes` and `stride == 1` has
an identity shortcut and (for either constructed mode) is
shape-preserving on matching-channel inputs; with `in_planes ≠ out_planes`
or `stride ≠ 1` the shortcut is a learned bias-free 3×3 convolution with
the block's stride. -/
theorem ResBlock.shortcut_and_shape (E : Ext) (m m2 : ResBlock) (x : Tensor)
    (hmode : m.mode = some "rife" ∨ m.mode = some "ifnet")
    (heq : m.in_planes = m.out_planes) (hs : m.stride = 1) (hc : x.c = m.in_planes)
    (hxh : 1 ≤ x.h) (hxw : 1 ≤ x.w)
    (hne : ¬(m2.in_planes = m2.out_planes ∧ m2.stride = 1)) :
    ResBlock.conv0 m = Shortcut.id ∧
    (ResBlock.forward E m x).map (fun t => (t.n, t.c, t.h, t.w)) =
      some (x.n, x.c, x.h, x.w) ∧
    ResBlock.conv0 m2 =
      Shortcut.proj ⟨m2.in_planes, m2.out_planes, 3, m2.stride, 1, 1, m2.P.c0w,
        fun _ => 0⟩ := by
  have h1 : convDim x.h 3 1 1 1 = x.h := convDim_stride1_k3 x.h hxh
  have h2 : convDim x.w 3 1 1 1 = x.w := convDim_stride1_k3 x.w hxw
  have h3 : convDim x.h 5 1 2 1 = x.h := convDim_stride1_k5 x.h hxh
  have h4 : convDim x.w 5 1 2 1 = x.w := convDim_stride1_k5 x.w hxw
  refine ⟨by simp [ResBlock.conv0, heq, hs], ?_, by simp [ResBlock.conv0, hne]⟩
  rcases hmode with h | h
  · rw [ResBlock.forward_rife E m x h]
    simp [ResBlock.runRife_n, ResBlock.runRife_c, ResBlock.runRife_h, ResBlock.runRife_w,
      hs, h1, h2, hc, heq]
  · rw [ResBlock.forward_ifnet E m x h]
    simp [ResBlock.runIfnet_n, ResBlock.runIfnet_c, ResBlock.runIfnet_h,
      ResBlock.runIfnet_w, hs, h1, h2, h3, h4, hc, heq]

/-- Witness for C9 at concrete blocks (a 4→4 stride-1 'rife' block and a
3→4 stride-2 block) and a concrete 4-channel input. -/
theorem ResBlock.shortcut_and_shape_witness :
    ((⟨4, 4, 1, some "rife", zeroResBlockP⟩ : ResBlock).mode = some "rife" ∨
      (⟨4, 4, 1, some "rife", zeroResBlockP⟩ : ResBlock).mode = some "ifnet") ∧
    ResBlock.conv0 (⟨4, 4, 1, some "rife", zeroResBlockP⟩ : ResBlock) = Shortcut.id ∧
    (ResBlock.forward E0 (⟨4, 4, 1, some "rife", zeroResBlockP⟩ : ResBlock)
      (T0 1 4 2 2)).map (fun t => (t.n, t.c, t.h, t.w)) = some (1, 4, 2, 2) := by
  have h := ResBlock.shortcut_and_shape E0 ⟨4, 4, 1, some "rife", zeroResBlockP⟩
    ⟨3, 4, 2, some "rife", zeroResBlockP⟩ (T0 1 4 2 2) (Or.inl rfl) rfl rfl rfl
    (by decide) (by decide) (by decide)
  exact ⟨Or.inl rfl, h.1, h.2.1⟩

/-- C6: in `RIFE.forward`, the residual is the sigmoid of the refine
output's first three channels rescaled to [-1,1], the mask is the sigmoid
of channel 3 and lies in [0,1], the blended image is
`warped0*mask + warped1*(1-mask)`, and the prediction is the blend plus
the residual clamped elementwise to [0,1]. -/
theorem RIFE.blend_residual_combination (E : Ext) (m : RIFEP) (img0 img1 : Tensor)
    (flow_gt : Option Tensor) (hsig : ∀ q, 0 ≤ E.sig q ∧ E.sig q ≤ 1) :
    (∀ n c y xo, c < 3 → (RIFE.res E m img0 img1 flow_gt).data n c y xo =
      E.sig ((RIFE.refine E m img0 img1 flow_gt).data n c y xo) * 2 - 1) ∧
    (∀ n y xo, (RIFE.mask E m img0 img1 flow_gt).data n 0 y xo =
        E.sig ((RIFE.refine E m img0 img1 flow_gt).data n 3 y xo) ∧
      0 ≤ (RIFE.mask E m img0 img1 flow_gt).data n 0 y xo ∧
      (RIFE.mask E m img0 img1 flow_gt).data n 0 y xo ≤ 1) ∧
    (∀ n c y xo, c < 3 → y < (RIFE.mask E m img0 img1 flow_gt).h →
      xo < (RIFE.mask E m img0 img1 flow_gt).w →
      (RIFE.merged E m img0 img1 flow_gt).data n c y xo =
        (RIFE.fusion E m img0 img1 flow_gt).w0.data n c y xo *
          (RIFE.mask E m img0 img1 flow_gt).data n 0 y xo +
        (RIFE.fusion E m img0 img1 flow_gt).w1.data n c y xo *
          (1 - (RIFE.mask E m img0 img1 flow_gt).data n 0 y xo)) ∧
    (∀ n c y xo, (RIFE.pred E m img0 img1 flow_gt).data n c y xo =
        min (max 0 ((RIFE.merged E m img0 img1 flow_gt).data n c y xo +
          (RIFE.res E m img0 img1 flow_gt).data n c y xo)) 1 ∧
      0 ≤ (RIFE.pred E m img0 img1 flow_gt).data n c y xo ∧
      (RIFE.pred E m img0 img1 flow_gt).data n c y xo ≤ 1) := by
  have hc1 : (RIFE.mask E m img0 img1 flow_gt).c = 1 := by simp [RIFE.mask]
  refine ⟨?_, ?_, ?_, ?_⟩
  · intro n c y xo hc3
    simp [RIFE.res, Tensor.subScalar, Tensor.smul, sigmoidT, Tensor.sliceC]
  · intro n y xo
    refine ⟨?_, (hsig _).1, (hsig _).2⟩
    simp [RIFE.mask, sigmoidT, Tensor.sliceC]
  · intro n c y xo hc3 hy hx
    by_cases hmh : (RIFE.mask E m img0 img1 flow_gt).h = 1
    · have hy0 : y = 0 := by omega
      subst hy0
      by_cases hmw : (RIFE.mask E m img0 img1 flow_gt).w = 1
      · have hx0 : xo = 0 := by omega
        subst hx0
        simp [RIFE.merged, Tensor.add, Tensor.mul, Tensor.scalarSub, hc1, hmh, hmw]
      · simp [RIFE.merged, Tensor.add, Tensor.mul, Tensor.scalarSub, hc1, hmh, hmw]
    · by_cases hmw : (RIFE.mask E m img0 img1 flow_gt).w = 1
      · have hx0 : xo = 0 := by omega
        subst hx0
        simp [RIFE.merged, Tensor.add, Tensor.mul, Tensor.scalarSub, hc1, hmh, hmw]
      · simp [RIFE.merged, Tensor.add, Tensor.mul, Tensor.scalarSub, hc1, hmh, hmw]
  · intro n c y xo
    refine ⟨rfl, ?_, ?_⟩
    · exact le_min (le_max_left 0 _) zero_le_one
    · exact min_le_right _ 1

/-- Witness for C6: the constant-half sigmoid of `E0` satisfies the
[0,1] range contract, and the instantiated conclusion holds at a concrete
input and index. -/
theorem RIFE.blend_residual_combination_witness :
    (∀ q, 0 ≤ E0.sig q ∧ E0.sig q ≤ 1) ∧
    0 ≤ (RIFE.pred E0 zeroRIFEP (T0 1 3 32 32) (T0 1 3 32 32) none).data 0 0 0 0 := by
  have hs : ∀ q, 0 ≤ E0.sig q ∧ E0.sig q ≤ 1 := by
    intro q
    constructor <;> norm_num [E0]
  exact ⟨hs, ((RIFE.blend_residual_combination E0 zeroRIFEP (T0 1 3 32 32) (T0 1 3 32 32)
    none hs).2.2.2 0 0 0 0).2.1⟩

/-- C1: for same-shape images whose spatial dimensions are positive
multiples of 32, `RIFE.forward` in inference mode returns exactly one
tensor, of the same spatial shape as `img0`, with every element in
[0,1]. -/
theorem RIFE.inference_shape_and_range (E : Ext) (m : RIFEP) (img0 img1 : Tensor)
    (imgs flow : Option Tensor) (flow_gt : Option Tensor) (a b : Nat)
    (ha : img0.h = 32 * a) (ha1 : 1 ≤ a) (hb : img0.w = 32 * b) (hb1 : 1 ≤ b)
    (hsh : img1.h = img0.h) (hsw : img1.w = img0.w) :
    RIFE.forward E m img0 img1 imgs flow false flow_gt =
      some (RIFEOut.infer (RIFE.pred E m img0 img1 flow_gt)) ∧
    (RIFE.pred E m img0 img1 flow_gt).h = img0.h ∧
    (RIFE.pred E m img0 img1 flow_gt).w = img0.w ∧
    (∀ n c y xo, 0 ≤ (RIFE.pred E m img0 img1 flow_gt).data n c y xo ∧
      (RIFE.pred E m img0 img1 flow_gt).data n c y xo ≤ 1) := by
  have h0h : (RIFE.img0s img0 img1).h = 32 * a := by simp [RIFE.img0s, ha]
  have h0w : (RIFE.img0s img0 img1).w = 32 * b := by simp [RIFE.img0s, hb]
  have hrh : (RIFE.refine E m img0 img1 flow_gt).h = 32 * a := by
    simp only [RIFE.refine, RIFE.fusion]
    exact FusionNet.out_h E _ _ _ _ _ _ _ a h0h ha1
  have hrw : (RIFE.refine E m img0 img1 flow_gt).w = 32 * b := by
    simp only [RIFE.refine, RIFE.fusion]
    exact FusionNet.out_w E _ _ _ _ _ _ _ b h0w hb1
  have hmh : (RIFE.mask E m img0 img1 flow_gt).h = 32 * a := by
    simp [RIFE.mask, hrh]
  have hmw : (RIFE.mask E m img0 img1 flow_gt).w = 32 * b := by
    simp [RIFE.mask, hrw]
  have hw0h : (RIFE.fusion E m img0 img1 flow_gt).w0.h = 32 * a := by
    simp [RIFE.fusion, FusionNet.run, RIFE.img0s, ha]
  have hw0w : (RIFE.fusion E m img0 img1 flow_gt).w0.w = 32 * b := by
    simp [RIFE.fusion, FusionNet.run, RIFE.img0s, hb]
  refine ⟨?_, ?_, ?_, ?_⟩
  · simpa using RIFE.forward_unfold E m img0 img1 imgs flow false flow_gt
  · simp [RIFE.pred, RIFE.merged, RIFE.res, hw0h, hmh, ha]
  · simp [RIFE.pred, RIFE.merged, RIFE.res, hw0w, hmw, hb]
  · intro n c y xo
    refine ⟨?_, ?_⟩
    · exact le_min (le_max_left 0 _) zero_le_one
    · exact min_le_right _ 1

/-- Witness for C1 at concrete 32×32 three-channel frames. -/
theorem RIFE.inference_shape_and_range_witness :
    (T0 1 3 32 32).h = 32 * 1 ∧ (T0 1 3 32 32).w = 32 * 1 ∧
    (RIFE.pred E0 zeroRIFEP (T0 1 3 32 32) (T0 1 3 32 32) none).h = (T0 1 3 32 32).h :=
  ⟨by decide, by decide,
    (RIFE.inference_shape_and_range E0 zeroRIFEP (T0 1 3 32 32) (T0 1 3 32 32) none none
      none 1 1 (by decide) (by decide) (by decide) (by decide) (by decide)
      (by decide)).2.1⟩

end RIFEHD
